import Mathlib

/-!
Shallow embedding of the syscall event subscription and probe-lifecycle
engine of `pkg/sensor/syscall.go` (capsule8 sensor), together with proofs
about it. Expression nodes, the filter validator `containsIDFilter`, the
legacy-field rewriter `rewriteSyscallEventFilter`, the sample decoders,
and the probe registration machine `registerSyscallEvents` (including the
shared refcounted sentinel tracepoint lifecycle) are translated from the
Go source. The expression-package constructors and the expression
evaluator live in `pkg/expression`, which is not part of the source under
consideration; they are modelled from the spec where needed and marked as
such.
-/

namespace Capsule8

/-- Typed literal values carried by expression VALUE nodes (`api.Value`):
the syscall id and return value are signed 64-bit, the six arguments are
unsigned 64-bit. -/
inductive ExprVal where
  | signedInt64 (v : Int)
  | unsignedInt64 (v : Nat)
  deriving DecidableEq, Repr

/-- Expression tree nodes of `api.Expression`. Expression pointers
(`*api.Expression` in Go) are nullable; the nil pointer is represented by
the explicit `nullExpr` constructor, on which the proto getters return
their zero values exactly as Go getters do on a nil receiver. The `ne`
constructor stands in for the remaining binary node kinds that
`containsIDFilter` treats as "any other node kind". -/
inductive Expr where
  | nullExpr
  | identifier (name : String)
  | value (v : ExprVal)
  | logicalAnd (lhs rhs : Expr)
  | logicalOr (lhs rhs : Expr)
  | eq (lhs rhs : Expr)
  | ne (lhs rhs : Expr)
  deriving DecidableEq, Repr

/-- Node-kind tags returned by the proto getter `Expression.GetType()`;
`NONE` is the getter's zero value on a nil pointer. -/
inductive ExprType where
  | NONE | IDENTIFIER | VALUE | LOGICAL_AND | LOGICAL_OR | EQ | NE
  deriving DecidableEq, Repr

/-- Proto getter `expr.GetType()`: nil receiver yields the zero value. -/
def getType : Expr → ExprType
  | Expr.nullExpr => ExprType.NONE
  | Expr.identifier _ => ExprType.IDENTIFIER
  | Expr.value _ => ExprType.VALUE
  | Expr.logicalAnd _ _ => ExprType.LOGICAL_AND
  | Expr.logicalOr _ _ => ExprType.LOGICAL_OR
  | Expr.eq _ _ => ExprType.EQ
  | Expr.ne _ _ => ExprType.NE

/-- Proto getter `expr.GetIdentifier()`: empty string unless the node is
an IDENTIFIER. -/
def getIdentifier : Expr → String
  | Expr.identifier n => n
  | _ => ""

/-- Validator `containsIDFilter` from `pkg/sensor/syscall.go`: decides
whether an expression tree guarantees a constraint on the "id" field.
LOGICAL_AND recurses with `||`, LOGICAL_OR with `&&`, EQ checks that the
left operand is an IDENTIFIER named "id", everything else (including a
nil expression) is `false`. -/
def containsIDFilter : Expr → Bool
  | Expr.nullExpr => false
  | Expr.logicalAnd l r => containsIDFilter l || containsIDFilter r
  | Expr.logicalOr l r => containsIDFilter l && containsIDFilter r
  | Expr.eq l _ =>
      if getType l ≠ ExprType.IDENTIFIER then false
      else if getIdentifier l ≠ "id" then false
      else true
  | Expr.identifier _ => false
  | Expr.value _ => false
  | Expr.ne _ _ => false

/-- Modelled from the spec: ExpressionEngine constructor `Identifier(name)`
(`pkg/expression` is outside the provided source). -/
def Identifier (name : String) : Expr := Expr.identifier name

/-- Modelled from the spec: ExpressionEngine constructor `Value(v)`
(`pkg/expression` is outside the provided source). -/
def valueOf (v : ExprVal) : Expr := Expr.value v

/-- Modelled from the spec: ExpressionEngine constructor `Equal(a, b)`
(`pkg/expression` is outside the provided source). -/
def Equal (l r : Expr) : Expr := Expr.eq l r

/-- Modelled from the spec: ExpressionEngine constructor `LogicalAnd(a, b)`
with absence (nil) as the neutral element, per the FilterRewriter contract
("fold it into the existing expression tree via logical AND"; a spec with
legacy id=5 and no expression yields exactly `id==5`). -/
def LogicalAnd : Expr → Expr → Expr
  | Expr.nullExpr, r => r
  | l, Expr.nullExpr => l
  | l, r => Expr.logicalAnd l r

/-- Modelled from the spec: ExpressionEngine constructor `LogicalOr(a, b)`
with absence (nil) as the neutral element, per the Filter Union contract
("combined into a single expression via repeated logical OR, absence
treated as the neutral element"). -/
def LogicalOr : Expr → Expr → Expr
  | Expr.nullExpr, r => r
  | l, Expr.nullExpr => l
  | l, r => Expr.logicalOr l r

/-- `api.SyscallEventType` enum: UNKNOWN = 0, ENTER = 1, EXIT = 2. -/
inductive SyscallEventType where
  | unknown | enter | exit
  deriving DecidableEq, Repr

/-- Numeric value of the proto enum, used by the `%d` diagnostic. -/
def SyscallEventType.toNat : SyscallEventType → Nat
  | SyscallEventType.unknown => 0
  | SyscallEventType.enter => 1
  | SyscallEventType.exit => 2

/-- `api.SyscallEventFilter`: the legacy scalar wrapper fields
(`*wrappers.Int64Value` / `*wrappers.UInt64Value`) are `Option`s, the
expression pointer is an `Expr` (nil = `Expr.nullExpr`). -/
structure SyscallEventFilter where
  type : SyscallEventType
  id : Option Int
  arg0 : Option Nat
  arg1 : Option Nat
  arg2 : Option Nat
  arg3 : Option Nat
  arg4 : Option Nat
  arg5 : Option Nat
  ret : Option Int
  filterExpression : Expr
  deriving DecidableEq, Repr

/-- Step of `rewriteSyscallEventFilter` for the legacy `Id` field. -/
def rewriteIdField (sef : SyscallEventFilter) : SyscallEventFilter :=
  match sef.id with
  | some v =>
      { sef with
        filterExpression :=
          LogicalAnd (Equal (Identifier "id") (valueOf (ExprVal.signedInt64 v)))
            sef.filterExpression,
        id := none }
  | none => sef

/-- Step of `rewriteSyscallEventFilter` for the legacy `Arg0` field. -/
def rewriteArg0Field (sef : SyscallEventFilter) : SyscallEventFilter :=
  match sef.arg0 with
  | some v =>
      { sef with
        filterExpression :=
          LogicalAnd (Equal (Identifier "arg0") (valueOf (ExprVal.unsignedInt64 v)))
            sef.filterExpression,
        arg0 := none }
  | none => sef

/-- Step of `rewriteSyscallEventFilter` for the legacy `Arg1` field. -/
def rewriteArg1Field (sef : SyscallEventFilter) : SyscallEventFilter :=
  match sef.arg1 with
  | some v =>
      { sef with
        filterExpression :=
          LogicalAnd (Equal (Identifier "arg1") (valueOf (ExprVal.unsignedInt64 v)))
            sef.filterExpression,
        arg1 := none }
  | none => sef

/-- Step of `rewriteSyscallEventFilter` for the legacy `Arg2` field. -/
def rewriteArg2Field (sef : SyscallEventFilter) : SyscallEventFilter :=
  match sef.arg2 with
  | some v =>
      { sef with
        filterExpression :=
          LogicalAnd (Equal (Identifier "arg2") (valueOf (ExprVal.unsignedInt64 v)))
            sef.filterExpression,
        arg2 := none }
  | none => sef

/-- Step of `rewriteSyscallEventFilter` for the legacy `Arg3` field. -/
def rewriteArg3Field (sef : SyscallEventFilter) : SyscallEventFilter :=
  match sef.arg3 with
  | some v =>
      { sef with
        filterExpression :=
          LogicalAnd (Equal (Identifier "arg3") (valueOf (ExprVal.unsignedInt64 v)))
            sef.filterExpression,
        arg3 := none }
  | none => sef

/-- Step of `rewriteSyscallEventFilter` for the legacy `Arg4` field. -/
def rewriteArg4Field (sef : SyscallEventFilter) : SyscallEventFilter :=
  match sef.arg4 with
  | some v =>
      { sef with
        filterExpression :=
          LogicalAnd (Equal (Identifier "arg4") (valueOf (ExprVal.unsignedInt64 v)))
            sef.filterExpression,
        arg4 := none }
  | none => sef

/-- Step of `rewriteSyscallEventFilter` for the legacy `Arg5` field. -/
def rewriteArg5Field (sef : SyscallEventFilter) : SyscallEventFilter :=
  match sef.arg5 with
  | some v =>
      { sef with
        filterExpression :=
          LogicalAnd (Equal (Identifier "arg5") (valueOf (ExprVal.unsignedInt64 v)))
            sef.filterExpression,
        arg5 := none }
  | none => sef

/-- Step of `rewriteSyscallEventFilter` for the legacy `Ret` field. -/
def rewriteRetField (sef : SyscallEventFilter) : SyscallEventFilter :=
  match sef.ret with
  | some v =>
      { sef with
        filterExpression :=
          LogicalAnd (Equal (Identifier "ret") (valueOf (ExprVal.signedInt64 v)))
            sef.filterExpression,
        ret := none }
  | none => sef

/-- `rewriteSyscallEventFilter` from `pkg/sensor/syscall.go`: rewrites the
legacy `Id` field first, then for ENTER-type specs the six argument
fields in order, and for EXIT-type specs the `Ret` field; each produces
`field == value` AND-folded onto the existing expression (new constraint
on the left) and clears the legacy field. The Go function mutates the
spec in place; here it returns the updated spec. -/
def rewriteSyscallEventFilter (sef0 : SyscallEventFilter) : SyscallEventFilter :=
  let sef := rewriteIdField sef0
  if sef.type = SyscallEventType.enter then
    rewriteArg5Field (rewriteArg4Field (rewriteArg3Field (rewriteArg2Field
      (rewriteArg1Field (rewriteArg0Field sef)))))
  else if sef.type = SyscallEventType.exit then
    rewriteRetField sef
  else
    sef

/-! ## Expression evaluation (ExpressionEngine collaborator) -/

/-- Modelled from the spec: the ExpressionEngine "evaluates boolean filter
trees over named typed fields" (`pkg/expression` is outside the provided
source). Value of an operand against a sample: identifiers look up the
sample's named field, literals evaluate to themselves. -/
def evalVal (s : String → Option ExprVal) : Expr → Option ExprVal
  | Expr.identifier n => s n
  | Expr.value v => some v
  | _ => none

/-- Modelled from the spec: boolean evaluation of a filter tree against a
sample: AND/OR are boolean conjunction/disjunction, EQ compares the two
operand values, anything else (including a nil tree) does not match. -/
def evalExpr (s : String → Option ExprVal) : Expr → Bool
  | Expr.logicalAnd l r => evalExpr s l && evalExpr s r
  | Expr.logicalOr l r => evalExpr s l || evalExpr s r
  | Expr.eq l r =>
      match evalVal s l, evalVal s r with
      | some a, some b => a == b
      | _, _ => false
  | _ => false

/-! ## Sample decoders -/

/-- Raw `perf.SampleRecord`: contents opaque to the decoders. -/
structure SampleRecord where
  tag : Nat
  deriving DecidableEq, Repr

/-- `perf.TraceEventSampleData` for the enter kprobe, restricted to the
fields fixed by `syscallEnterEventTypes`: signed 64-bit id, six unsigned
64-bit arguments. -/
structure EnterSampleData where
  id : Int
  arg0 : Nat
  arg1 : Nat
  arg2 : Nat
  arg3 : Nat
  arg4 : Nat
  arg5 : Nat
  deriving DecidableEq, Repr

/-- `perf.TraceEventSampleData` for the exit tracepoint, restricted to the
fields fixed by `syscallExitEventTypes`: signed 64-bit id and return
value. -/
structure ExitSampleData where
  id : Int
  ret : Int
  deriving DecidableEq, Repr

/-- Base event envelope produced by the sensor-level constructor
`NewEventFromSample` (timestamp, process/container context); contents
opaque here. -/
structure BaseEvent where
  tag : Nat
  deriving DecidableEq, Repr

/-- The `TelemetryEvent_Syscall` payload set by the decoders. -/
inductive SyscallPayload where
  | enterPayload (id : Int) (arg0 arg1 arg2 arg3 arg4 arg5 : Nat)
  | exitPayload (id ret : Int)
  deriving DecidableEq, Repr

/-- A decoded telemetry event: the envelope plus the syscall payload. -/
structure TelemetryEvent where
  base : BaseEvent
  event : SyscallPayload
  deriving DecidableEq, Repr

/-- `syscallFilter.decodeDummySysEnter`: always `(nil, nil)` — the
sentinel never produces an event and never fails. -/
def decodeDummySysEnter (_sample : SampleRecord) (_data : EnterSampleData) :
    Option TelemetryEvent × Option String :=
  (none, none)

/-- `syscallFilter.decodeSyscallTraceEnter`. `newEventFromSample` stands
for the sensor-level constructor `Sensor.NewEventFromSample`, which lives
outside the provided source; it is passed in as a function (modelled from
the spec: it may decline by returning nil). -/
def decodeSyscallTraceEnter
    (newEventFromSample : SampleRecord → Option BaseEvent)
    (sample : SampleRecord) (data : EnterSampleData) :
    Option TelemetryEvent × Option String :=
  match newEventFromSample sample with
  | none => (none, none)
  | some ev =>
      (some { base := ev,
              event := SyscallPayload.enterPayload data.id data.arg0 data.arg1
                data.arg2 data.arg3 data.arg4 data.arg5 },
       none)

/-- `syscallFilter.decodeSysExit`, analogous to the enter decoder. -/
def decodeSysExit
    (newEventFromSample : SampleRecord → Option BaseEvent)
    (sample : SampleRecord) (data : ExitSampleData) :
    Option TelemetryEvent × Option String :=
  match newEventFromSample sample with
  | none => (none, none)
  | some ev =>
      (some { base := ev, event := SyscallPayload.exitPayload data.id data.ret },
       none)

/-! ## registerSyscallEvents: filter loop -/

/-- Diagnostic codes used by this engine. -/
inductive Code where
  | INVALID_ARGUMENT | UNKNOWN
  deriving DecidableEq, Repr

/-- Observable actions of the registration machine: EventMonitor calls
(tracepoint/kprobe registration attempts with their outcome and assigned
id, event unregistration), event-sink creation attempts, and diagnostics
(`subscr.logStatus`). -/
inductive Action where
  | regTracepoint (name : String) (ok : Bool) (id : Nat)
  | regKprobe (symbol : String) (fetchargs : String) (ok : Bool) (id : Nat)
  | unregisterEvent (id : Nat)
  | addEventSink (isEnter : Bool) (ok : Bool)
  | logStatus (c : Code) (msg : String)
  deriving DecidableEq, Repr

/-- Accumulator of the filter loop at the top of `registerSyscallEvents`:
the two per-direction union expressions and the diagnostics emitted so
far. -/
structure LoopResult where
  enterFilter : Expr
  exitFilter : Expr
  actions : List Action
  deriving DecidableEq, Repr

/-- One iteration of the filter loop: rewrite the legacy fields, drop the
spec with one INVALID_ARGUMENT diagnostic if it fails `containsIDFilter`,
otherwise OR it into the union for its direction; an invalid direction
value also draws one INVALID_ARGUMENT diagnostic. -/
def processOneFilter (r : LoopResult) (sef0 : SyscallEventFilter) : LoopResult :=
  let sef := rewriteSyscallEventFilter sef0
  if ¬ containsIDFilter sef.filterExpression then
    { r with actions := r.actions ++
        [Action.logStatus Code.INVALID_ARGUMENT "Wildcard syscall filter ignored"] }
  else
    match sef.type with
    | SyscallEventType.enter =>
        { r with enterFilter := LogicalOr r.enterFilter sef.filterExpression }
    | SyscallEventType.exit =>
        { r with exitFilter := LogicalOr r.exitFilter sef.filterExpression }
    | SyscallEventType.unknown =>
        { r with actions := r.actions ++
            [Action.logStatus Code.INVALID_ARGUMENT
              ("SyscallEventType " ++ toString sef.type.toNat ++ " is invalid")] }

/-- The filter loop of `registerSyscallEvents`. -/
def processFilters (events : List SyscallEventFilter) : LoopResult :=
  events.foldl processOneFilter ⟨Expr.nullExpr, Expr.nullExpr, []⟩

/-! ## registerSyscallEvents: probe registration -/

/-- Kprobe symbol constants from `pkg/sensor/syscall.go`. -/
def syscallNewEnterKprobeAddress : String := "syscall_trace_enter_phase1"

/-- Older-kernel kprobe symbol constant. -/
def syscallOldEnterKprobeAddress : String := "syscall_trace_enter"

/-- The fixed argument-fetch specification (offsets into `struct pt_regs`),
reused unchanged across both enter kprobe candidates. -/
def syscallEnterKprobeFetchargs : String :=
  "id=+120(%di):s64 arg0=+112(%di):u64 arg1=+104(%di):u64 " ++
  "arg2=+96(%di):u64 arg3=+56(%di):u64 arg4=+72(%di):u64 arg5=+64(%di):u64"

/-- Environment for one `registerSyscallEvents` call: the kernel major
version (`sys.KernelVersion`), which EventMonitor registrations succeed
(keyed by tracepoint name / kprobe symbol), and whether `addEventSink`
succeeds per direction. -/
structure RegEnv where
  major : Nat
  tracepointOk : String → Bool
  kprobeOk : String → Bool
  enterSinkOk : Bool
  exitSinkOk : Bool

/-- The sensor-level mutable state this engine reads and writes:
`Sensor.dummySyscallEventCount`, `Sensor.dummySyscallEventID`, and a
fresh-id counter modelling the EventMonitor's id allocation. -/
structure SensorState where
  dummySyscallEventCount : Int
  dummySyscallEventID : Nat
  nextID : Nat
  deriving DecidableEq, Repr

/-- `Monitor.RegisterTracepoint`: on success allocates a fresh event id;
the attempt is recorded either way. -/
def tryRegisterTracepoint (env : RegEnv) (st : SensorState) (name : String) :
    SensorState × Option Nat × Action :=
  if env.tracepointOk name then
    ({ st with nextID := st.nextID + 1 }, some st.nextID,
      Action.regTracepoint name true st.nextID)
  else
    (st, none, Action.regTracepoint name false st.nextID)

/-- `Sensor.RegisterKprobe`, analogous to tracepoint registration. -/
def tryRegisterKprobe (env : RegEnv) (st : SensorState) (symbol fetchargs : String) :
    SensorState × Option Nat × Action :=
  if env.kprobeOk symbol then
    ({ st with nextID := st.nextID + 1 }, some st.nextID,
      Action.regKprobe symbol fetchargs true st.nextID)
  else
    (st, none, Action.regKprobe symbol fetchargs false st.nextID)

/-- One registered `eventSink` of a subscription, as far as this engine
is concerned: its kernel event id and whether it carries the custom
sentinel-releasing unregister hook. -/
structure EventSink where
  eventID : Nat
  hasDummyHook : Bool
  deriving DecidableEq, Repr

/-- The dummy/sentinel tracepoint part of the enter branch of
`registerSyscallEvents`: per-subscription with name fallback for kernels
of major version < 3; shared and refcounted, `raw_syscalls/sys_enter`
only, for major version >= 3. -/
def sentinelPart (env : RegEnv) (st0 : SensorState) : SensorState × List Action :=
  if env.major < 3 then
    let (st, r1, a1) := tryRegisterTracepoint env st0 "raw_syscalls/sys_enter"
    match r1 with
    | some _ => (st, [a1])
    | none =>
      let (st, r2, a2) := tryRegisterTracepoint env st "syscalls/sys_enter"
      match r2 with
      | some _ => (st, [a1, a2])
      | none =>
        (st, [a1, a2,
          Action.logStatus Code.UNKNOWN
            "Could not register dummy syscall event syscalls/sys_enter"])
  else
    let stInc := { st0 with
      dummySyscallEventCount := st0.dummySyscallEventCount + 1 }
    if stInc.dummySyscallEventCount = 1 then
      let (st, r, a) := tryRegisterTracepoint env stInc "raw_syscalls/sys_enter"
      match r with
      | none =>
        ({ st with dummySyscallEventCount := st.dummySyscallEventCount - 1 },
         [a, Action.logStatus Code.UNKNOWN
            "Could not register dummy syscall event raw_syscalls/sys_enter"])
      | some eid => ({ st with dummySyscallEventID := eid }, [a])
    else
      (stInc, [])

/-- The enter kprobe attempt chain of `registerSyscallEvents`: try
`syscall_trace_enter_phase1`, on failure `syscall_trace_enter`, with the
same fetchargs. -/
def enterKprobePart (env : RegEnv) (st1 : SensorState) :
    SensorState × Option Nat × List Action :=
  let (st, r1, a1) :=
    tryRegisterKprobe env st1 syscallNewEnterKprobeAddress syscallEnterKprobeFetchargs
  match r1 with
  | some kid => (st, some kid, [a1])
  | none =>
    let (st, r2, a2) :=
      tryRegisterKprobe env st syscallOldEnterKprobeAddress syscallEnterKprobeFetchargs
    match r2 with
    | some kid => (st, some kid, [a1, a2])
    | none => (st, none, [a1, a2])

/-- Enter-direction half of `registerSyscallEvents` (executed when the
enter union filter is non-nil): the dummy/sentinel tracepoint part, the
enter kprobe part, then the event sink with its rollback path. Returns
the updated sensor state, the emitted actions in order, and the sinks
created. -/
def enterPhase (env : RegEnv) (st0 : SensorState) :
    SensorState × List Action × List EventSink :=
  let dummy := sentinelPart env st0
  let st1 := dummy.1
  let acts1 := dummy.2
  let kprobe := enterKprobePart env st1
  let st2 := kprobe.1
  let acts2 := kprobe.2.2
  match kprobe.2.1 with
  | none =>
      (st2,
       acts1 ++ acts2 ++
         [Action.logStatus Code.UNKNOWN
           ("Could not register syscall enter kprobe " ++ syscallOldEnterKprobeAddress)],
       [])
  | some kid =>
      if env.enterSinkOk then
        (st2, acts1 ++ acts2 ++ [Action.addEventSink true true],
         [{ eventID := kid, hasDummyHook := decide (3 ≤ env.major) }])
      else
        let actsFail :=
          [Action.addEventSink true false,
           Action.logStatus Code.UNKNOWN
             "Invalid filter expression for syscall enter filter",
           Action.unregisterEvent kid]
        if 3 ≤ env.major then
          let cnt := st2.dummySyscallEventCount - 1
          let st3 := { st2 with dummySyscallEventCount := cnt }
          if cnt = 0 then
            (st3,
             acts1 ++ acts2 ++ actsFail ++
               [Action.unregisterEvent st3.dummySyscallEventID],
             [])
          else
            (st3, acts1 ++ acts2 ++ actsFail, [])
        else
          (st2, acts1 ++ acts2 ++ actsFail, [])

/-- The exit tracepoint attempt chain: `raw_syscalls/sys_exit`, on
failure `syscalls/sys_exit`. -/
def exitTracepointPart (env : RegEnv) (st0 : SensorState) :
    SensorState × Option Nat × List Action :=
  let (st, r1, a1) := tryRegisterTracepoint env st0 "raw_syscalls/sys_exit"
  match r1 with
  | some eid => (st, some eid, [a1])
  | none =>
    let (st, r2, a2) := tryRegisterTracepoint env st "syscalls/sys_exit"
    match r2 with
    | some eid => (st, some eid, [a1, a2])
    | none => (st, none, [a1, a2])

/-- Exit-direction half of `registerSyscallEvents` (executed when the
exit union filter is non-nil): the exit tracepoint with its fallback,
then the event sink; on sink failure the tracepoint is unregistered. -/
def exitPhase (env : RegEnv) (st0 : SensorState) :
    SensorState × List Action × List EventSink :=
  let tp := exitTracepointPart env st0
  let st1 := tp.1
  let acts1 := tp.2.2
  match tp.2.1 with
  | none =>
      (st1,
       acts1 ++
         [Action.logStatus Code.UNKNOWN
           "Could not register tracepoint syscalls/sys_exit"],
       [])
  | some eid =>
      if env.exitSinkOk then
        (st1, acts1 ++ [Action.addEventSink false true],
         [{ eventID := eid, hasDummyHook := false }])
      else
        (st1,
         acts1 ++
           [Action.addEventSink false false,
            Action.logStatus Code.UNKNOWN
              "Invalid filter expression for syscall exit filter",
            Action.unregisterEvent eid],
         [])

/-- `registerSyscallEvents` from `pkg/sensor/syscall.go`: run the filter
loop, then the enter phase if the enter union is non-nil, then the exit
phase if the exit union is non-nil. -/
def registerSyscallEvents (env : RegEnv) (st : SensorState)
    (events : List SyscallEventFilter) :
    SensorState × List Action × List EventSink :=
  let p := processFilters events
  let enter :=
    if p.enterFilter ≠ Expr.nullExpr then enterPhase env st else (st, [], [])
  let exitR :=
    if p.exitFilter ≠ Expr.nullExpr then exitPhase env enter.1 else (enter.1, [], [])
  (exitR.1, p.actions ++ enter.2.1 ++ exitR.2.1, enter.2.2 ++ exitR.2.2)

/-! ## Subscription lifecycle sequences -/

/-- Whole-system state for lifecycle sequences: the sensor state, the
currently live event sinks (across all subscriptions), and the cumulative
action trace. -/
structure World where
  st : SensorState
  sinks : List EventSink
  trace : List Action

/-- A lifecycle step: one `registerSyscallEvents` call, or the teardown
of one live event sink, which runs the custom unregister hook installed
at `es.unregister` (read `sensor.dummySyscallEventID`, decrement the
count, unregister the sentinel iff the count reaches zero). -/
inductive Step where
  | register (env : RegEnv) (events : List SyscallEventFilter)
  | unsubscribe (i : Nat)

/-- Run one lifecycle step. -/
def runStep (w : World) : Step → World
  | Step.register env events =>
      let r := registerSyscallEvents env w.st events
      { st := r.1, sinks := w.sinks ++ r.2.2, trace := w.trace ++ r.2.1 }
  | Step.unsubscribe i =>
      match w.sinks.get? i with
      | none => w
      | some sink =>
        let sinks := w.sinks.eraseIdx i
        if sink.hasDummyHook then
          let eventID := w.st.dummySyscallEventID
          let cnt := w.st.dummySyscallEventCount - 1
          let st := { w.st with dummySyscallEventCount := cnt }
          if cnt = 0 then
            { st := st, sinks := sinks,
              trace := w.trace ++ [Action.unregisterEvent eventID] }
          else
            { st := st, sinks := sinks, trace := w.trace }
        else
          { w with sinks := sinks }

/-- The initial world: count 0, no sinks, empty trace. -/
def initialWorld : World :=
  { st := { dummySyscallEventCount := 0, dummySyscallEventID := 0, nextID := 0 },
    sinks := [], trace := [] }

/-- Run a sequence of lifecycle steps from the initial world. -/
def runSteps (steps : List Step) : World := steps.foldl runStep initialWorld

/-! ## Trace replay: which kernel events are live -/

/-- Replay one action against the set of live kernel events (id and
tracepoint name / kprobe symbol). -/
def applyAction (live : List (Nat × String)) : Action → List (Nat × String)
  | Action.regTracepoint name true i => live ++ [(i, name)]
  | Action.regKprobe sym _ true i => live ++ [(i, sym)]
  | Action.unregisterEvent i => live.filter (fun p => p.1 ≠ i)
  | _ => live

/-- Live kernel events after a trace, starting from `live`. -/
def liveFrom (live : List (Nat × String)) (tr : List Action) : List (Nat × String) :=
  tr.foldl applyAction live

/-- Live kernel events after a trace from an empty kernel. -/
def liveEvents (tr : List Action) : List (Nat × String) := liveFrom [] tr

/-- A trace never unregisters an event that is not live: each
`unregisterEvent` targets a currently registered id (so in particular no
event is ever unregistered twice). -/
def validFrom (live : List (Nat × String)) : List Action → Bool
  | [] => true
  | a :: rest =>
    (match a with
     | Action.unregisterEvent i => live.any (fun p => p.1 == i)
     | _ => true)
    && validFrom (applyAction live a) rest

/-- The live entries that are the sentinel tracepoint. In the
`major >= 3` regime the only `raw_syscalls/sys_enter` registrations are
sentinel creations. -/
def sentinelEntries (live : List (Nat × String)) : List (Nat × String) :=
  live.filter (fun p => p.2 == "raw_syscalls/sys_enter")

/-! ## Concrete examples and measurement helpers -/

/-- The expression `id == v`. -/
def idEqExpr (v : Int) : Expr :=
  Equal (Identifier "id") (valueOf (ExprVal.signedInt64 v))

/-- A non-id-constraining expression, `arg0 == 4`. -/
def junkExpr : Expr :=
  Equal (Identifier "arg0") (valueOf (ExprVal.unsignedInt64 4))

/-- An ENTER-type filter spec with no legacy fields and no expression. -/
def emptyEnterSef : SyscallEventFilter :=
  { type := SyscallEventType.enter, id := none, arg0 := none, arg1 := none,
    arg2 := none, arg3 := none, arg4 := none, arg5 := none, ret := none,
    filterExpression := Expr.nullExpr }

/-- An ENTER-type filter spec with only legacy `id = v` set. -/
def enterIdSef (v : Int) : SyscallEventFilter := { emptyEnterSef with id := some v }

/-- After rewriting, a spec never carries a legacy scalar field that the
rewriter is responsible for: the id for any direction, the six arguments
for ENTER-type specs, the return value for EXIT-type specs. -/
def legacyCleared (sef : SyscallEventFilter) : Prop :=
  sef.id = none
  ∧ (sef.type = SyscallEventType.enter →
      sef.arg0 = none ∧ sef.arg1 = none ∧ sef.arg2 = none ∧ sef.arg3 = none
        ∧ sef.arg4 = none ∧ sef.arg5 = none)
  ∧ (sef.type = SyscallEventType.exit → sef.ret = none)

/-- The equality constraint for a set signed legacy field (id or ret),
as a zero-or-one element list. -/
def idConstraint (o : Option Int) (name : String) : List Expr :=
  match o with
  | some v => [Equal (Identifier name) (valueOf (ExprVal.signedInt64 v))]
  | none => []

/-- The equality constraint for a set unsigned legacy argument field, as
a zero-or-one element list. -/
def argConstraint (o : Option Nat) (name : String) : List Expr :=
  match o with
  | some v => [Equal (Identifier name) (valueOf (ExprVal.unsignedInt64 v))]
  | none => []

/-- The equality constraints of the set legacy fields the rewriter is
responsible for, in application order: the id first (any direction),
then arg0..arg5 for ENTER-type specs, or ret for EXIT-type specs. -/
def legacyConstraints (sef : SyscallEventFilter) : List Expr :=
  idConstraint sef.id "id"
    ++ (if sef.type = SyscallEventType.enter then
          argConstraint sef.arg0 "arg0" ++ argConstraint sef.arg1 "arg1"
            ++ argConstraint sef.arg2 "arg2" ++ argConstraint sef.arg3 "arg3"
            ++ argConstraint sef.arg4 "arg4" ++ argConstraint sef.arg5 "arg5"
        else if sef.type = SyscallEventType.exit then
          idConstraint sef.ret "ret"
        else [])

/-- A sample that carries only the field "id" with signed value `v`. -/
def sampleWithId (v : Int) : String → Option ExprVal :=
  fun n => if n = "id" then some (ExprVal.signedInt64 v) else none

/-- The (rewritten) expressions of the filter specs of direction `t` that
pass the validator, in order. -/
def validatedExprs (t : SyscallEventType) (events : List SyscallEventFilter) :
    List Expr :=
  events.filterMap (fun sef0 =>
    let sef := rewriteSyscallEventFilter sef0
    if containsIDFilter sef.filterExpression && (sef.type == t) then
      some sef.filterExpression
    else none)

/-- The kprobe registration attempts of a trace: symbol, fetchargs,
outcome, in order. -/
def kprobeAttempts (tr : List Action) : List (String × String × Bool) :=
  tr.filterMap (fun a =>
    match a with
    | Action.regKprobe sym fa ok _ => some (sym, fa, ok)
    | _ => none)

/-- The tracepoint registration attempts of a trace: name and outcome, in
order. -/
def tracepointAttempts (tr : List Action) : List (String × Bool) :=
  tr.filterMap (fun a =>
    match a with
    | Action.regTracepoint n ok _ => some (n, ok)
    | _ => none)

/-- The diagnostics of kind `c` in a trace, in order. -/
def logsOf (c : Code) (tr : List Action) : List String :=
  tr.filterMap (fun a =>
    match a with
    | Action.logStatus c2 m => if c2 == c then some m else none
    | _ => none)

/-- The `addEventSink` attempts of a trace: direction flag and outcome. -/
def sinkAttempts (tr : List Action) : List (Bool × Bool) :=
  tr.filterMap (fun a =>
    match a with
    | Action.addEventSink isE ok => some (isE, ok)
    | _ => none)

/-- Number of live sinks carrying the sentinel-releasing hook. -/
def hookedCount (sinks : List EventSink) : Nat :=
  (sinks.filter (fun s => s.hasDummyHook)).length

/-- Side conditions of the amended sentinel lifecycle claim: every
registration step runs on a kernel of major version at least 3 and the
sentinel tracepoint registration itself succeeds whenever attempted. -/
def StepOK : Step → Prop
  | Step.register env _ => 3 ≤ env.major ∧ env.tracepointOk "raw_syscalls/sys_enter" = true
  | Step.unsubscribe _ => True

/-- Inductive invariant of the sentinel lifecycle under `StepOK` steps:
the shared count dominates the number of hook-carrying sinks, the trace
never unregisters a non-live event, live ids are fresh-bounded and
distinct, and exactly the positive count corresponds to one live sentinel
entry at `dummySyscallEventID`. -/
def WorldInv (w : World) : Prop :=
  (hookedCount w.sinks : Int) ≤ w.st.dummySyscallEventCount
  ∧ validFrom [] w.trace = true
  ∧ (∀ p ∈ liveEvents w.trace, p.1 < w.st.nextID)
  ∧ (liveEvents w.trace).Pairwise (fun a b => a.1 ≠ b.1)
  ∧ sentinelEntries (liveEvents w.trace) =
      (if 0 < w.st.dummySyscallEventCount
       then [(w.st.dummySyscallEventID, "raw_syscalls/sys_enter")]
       else [])

/-- Environment where every registration and sink creation succeeds, on a
major-version-4 kernel. -/
def envAllOk : RegEnv :=
  { major := 4, tracepointOk := fun _ => true, kprobeOk := fun _ => true,
    enterSinkOk := true, exitSinkOk := true }

/-- Environment on a major-version-3 kernel where only the sentinel
tracepoint registration fails. -/
def envSentinelFails : RegEnv :=
  { major := 3, tracepointOk := fun n => !(n == "raw_syscalls/sys_enter"),
    kprobeOk := fun _ => true, enterSinkOk := true, exitSinkOk := true }

/-- Environment on a major-version-4 kernel where everything succeeds
except enter-direction event-sink creation. -/
def envEnterSinkFails : RegEnv :=
  { major := 4, tracepointOk := fun _ => true, kprobeOk := fun _ => true,
    enterSinkOk := false, exitSinkOk := true }

/-- Environment on a major-version-4 kernel where both enter kprobe
symbols fail to register. -/
def envKprobesFail : RegEnv :=
  { major := 4, tracepointOk := fun _ => true, kprobeOk := fun _ => false,
    enterSinkOk := true, exitSinkOk := true }

/-- Environment on a major-version-2 kernel where `raw_syscalls/sys_enter`
fails but `syscalls/sys_enter` succeeds. -/
def envOldKernelRawFails : RegEnv :=
  { major := 2, tracepointOk := fun n => n == "syscalls/sys_enter",
    kprobeOk := fun _ => true, enterSinkOk := true, exitSinkOk := true }

/-! ## Theorems -/

/-- C2: `containsIDFilter` returns, for EQ(identifier, value), true iff
the identifier operand is named "id"; for AND(L, R), true iff it holds of
L or of R; for OR(L, R), true iff it holds of L and of R; false for any
other node kind or a missing expression; and on the four concrete
examples: AND(id==2, junk) → true, AND(junk, junk) → false,
OR(id==2, junk) → false, OR(id==2, id==3) → true. -/
theorem containsIDFilter_spec :
    (∀ (name : String) (v : ExprVal),
      containsIDFilter (Equal (Identifier name) (valueOf v)) = (name == "id"))
    ∧ (∀ l r, containsIDFilter (Expr.logicalAnd l r) =
        (containsIDFilter l || containsIDFilter r))
    ∧ (∀ l r, containsIDFilter (Expr.logicalOr l r) =
        (containsIDFilter l && containsIDFilter r))
    ∧ containsIDFilter Expr.nullExpr = false
    ∧ (∀ n, containsIDFilter (Expr.identifier n) = false)
    ∧ (∀ v, containsIDFilter (Expr.value v) = false)
    ∧ (∀ l r, containsIDFilter (Expr.ne l r) = false)
    ∧ containsIDFilter (LogicalAnd (idEqExpr 2) junkExpr) = true
    ∧ containsIDFilter (LogicalAnd junkExpr junkExpr) = false
    ∧ containsIDFilter (LogicalOr (idEqExpr 2) junkExpr) = false
    ∧ containsIDFilter (LogicalOr (idEqExpr 2) (idEqExpr 3)) = true := by
  refine ⟨?_, fun l r => rfl, fun l r => rfl, rfl, fun _ => rfl, fun _ => rfl,
    fun _ _ => rfl, by decide, by decide, by decide, by decide⟩
  intro name v
  by_cases h : name = "id" <;>
    simp [containsIDFilter, Equal, Identifier, valueOf, getType, getIdentifier, h]

/-- C10: `containsIDFilter` inspects only the left operand of an EQ node:
whenever the left operand is not an IDENTIFIER named "id", the EQ node is
rejected, even if the right operand is the identifier "id". -/
theorem containsIDFilter_eq_left_only (l r : Expr)
    (h : getType l ≠ ExprType.IDENTIFIER ∨ getIdentifier l ≠ "id") :
    containsIDFilter (Expr.eq l r) = false := by
  rcases h with h | h <;> simp [containsIDFilter, h]

/-- Witness for C10: EQ(Value(2), Identifier("id")) is not accepted as an
id constraint. -/
theorem containsIDFilter_eq_left_only_witness :
    containsIDFilter (Equal (valueOf (ExprVal.signedInt64 2)) (Identifier "id")) = false :=
  containsIDFilter_eq_left_only (valueOf (ExprVal.signedInt64 2)) (Identifier "id")
    (Or.inl (by decide))

/-- C9: the sentinel decoder always returns no event and no error; the
real decoders return no event and no error whenever `NewEventFromSample`
declines, and otherwise return a typed enter event with the signed id and
six unsigned arguments, respectively a typed exit event with the signed
id and return value, with no error. -/
theorem decoders_spec :
    (∀ s d, decodeDummySysEnter s d = (none, none))
    ∧ (∀ f s d, f s = none → decodeSyscallTraceEnter f s d = (none, none))
    ∧ (∀ f s d, f s = none → decodeSysExit f s d = (none, none))
    ∧ (∀ f s d ev, f s = some ev →
        decodeSyscallTraceEnter f s d =
          (some { base := ev,
                  event := SyscallPayload.enterPayload d.id d.arg0 d.arg1 d.arg2
                    d.arg3 d.arg4 d.arg5 }, none))
    ∧ (∀ f s d ev, f s = some ev →
        decodeSysExit f s d =
          (some { base := ev, event := SyscallPayload.exitPayload d.id d.ret }, none)) := by
  refine ⟨fun _ _ => rfl, ?_, ?_, ?_, ?_⟩
  · intro f s d h; simp [decodeSyscallTraceEnter, h]
  · intro f s d h; simp [decodeSysExit, h]
  · intro f s d ev h; simp [decodeSyscallTraceEnter, h]
  · intro f s d ev h; simp [decodeSysExit, h]

/-- Witness for C9: a declining constructor yields a skip, a producing
constructor yields the typed event. -/
theorem decoders_spec_witness :
    decodeSyscallTraceEnter (fun _ => none) ⟨0⟩ ⟨1, 2, 3, 4, 5, 6, 7⟩ = (none, none)
    ∧ decodeSysExit (fun _ => some ⟨9⟩) ⟨0⟩ ⟨1, 2⟩ =
        (some { base := ⟨9⟩, event := SyscallPayload.exitPayload 1 2 }, none) :=
  ⟨decoders_spec.2.1 (fun _ => none) ⟨0⟩ ⟨1, 2, 3, 4, 5, 6, 7⟩ rfl,
   decoders_spec.2.2.2.2 (fun _ => some ⟨9⟩) ⟨0⟩ ⟨1, 2⟩ ⟨9⟩ rfl⟩

/-- For every spec, the rewriter's resulting expression is the AND-fold
(new constraint on the left) of the equality constraints of all its set
legacy fields — the id for any direction, arg0..arg5 only for ENTER-type
specs, ret only for EXIT-type specs — in application order, over the
original expression tree. -/
theorem rewriteSyscallEventFilter_foldEq (sef : SyscallEventFilter) :
    (rewriteSyscallEventFilter sef).filterExpression =
      (legacyConstraints sef).foldl (fun e c => LogicalAnd c e)
        sef.filterExpression := by
  rcases sef with ⟨ty, oid, a0, a1, a2, a3, a4, a5, oret, fe⟩
  cases ty
  · cases oid <;>
      simp [legacyConstraints, idConstraint, rewriteSyscallEventFilter,
        rewriteIdField]
  · cases oid <;> cases a0 <;> cases a1 <;> cases a2 <;> cases a3 <;> cases a4 <;>
      cases a5 <;>
      simp [legacyConstraints, idConstraint, argConstraint,
        rewriteSyscallEventFilter, rewriteIdField, rewriteArg0Field,
        rewriteArg1Field, rewriteArg2Field, rewriteArg3Field, rewriteArg4Field,
        rewriteArg5Field]
  · cases oid <;> cases oret <;>
      simp [legacyConstraints, idConstraint, rewriteSyscallEventFilter,
        rewriteIdField, rewriteRetField]

/-- C4: the rewriter replaces each relevant set legacy field by an
equality AND-folded with the new constraint on the left and clears it:
a spec with legacy id=5 and no expression becomes exactly `id==5` with
the id field cleared; the call is a no-op when no legacy field is set;
after rewriting no relevant legacy field survives; a spec whose only
set legacy field is the id gets `LogicalAnd (id==v) old` as its
expression; and in general every spec's resulting expression is the
AND-fold, new constraint on the left, of the equality constraints of
all its set legacy fields (id for any direction, arg0..arg5 only for
ENTER specs, ret only for EXIT specs) in application order over the
original expression. -/
theorem rewriteSyscallEventFilter_spec :
    (rewriteSyscallEventFilter (enterIdSef 5) =
      { emptyEnterSef with filterExpression := idEqExpr 5 })
    ∧ (∀ sef : SyscallEventFilter, sef.id = none → sef.arg0 = none → sef.arg1 = none →
        sef.arg2 = none → sef.arg3 = none → sef.arg4 = none → sef.arg5 = none →
        sef.ret = none → rewriteSyscallEventFilter sef = sef)
    ∧ (∀ sef, legacyCleared (rewriteSyscallEventFilter sef))
    ∧ (∀ (sef : SyscallEventFilter) (v : Int), sef.id = some v → sef.arg0 = none →
        sef.arg1 = none → sef.arg2 = none → sef.arg3 = none → sef.arg4 = none →
        sef.arg5 = none → sef.ret = none →
        (rewriteSyscallEventFilter sef).filterExpression =
          LogicalAnd (idEqExpr v) sef.filterExpression)
    ∧ (∀ sef : SyscallEventFilter,
        (rewriteSyscallEventFilter sef).filterExpression =
          (legacyConstraints sef).foldl (fun e c => LogicalAnd c e)
            sef.filterExpression) := by
  refine ⟨rfl, ?_, ?_, ?_, fun sef => rewriteSyscallEventFilter_foldEq sef⟩
  · rintro ⟨ty, oid, a0, a1, a2, a3, a4, a5, oret, fe⟩ h0 h1 h2 h3 h4 h5 h6 h7
    simp only at h0 h1 h2 h3 h4 h5 h6 h7
    subst h0; subst h1; subst h2; subst h3; subst h4; subst h5; subst h6; subst h7
    cases ty <;>
      simp [rewriteSyscallEventFilter, rewriteIdField, rewriteArg0Field,
        rewriteArg1Field, rewriteArg2Field, rewriteArg3Field, rewriteArg4Field,
        rewriteArg5Field, rewriteRetField]
  · rintro ⟨ty, oid, a0, a1, a2, a3, a4, a5, oret, fe⟩
    cases ty
    · cases oid <;>
        simp [legacyCleared, rewriteSyscallEventFilter, rewriteIdField]
    · cases oid <;> cases a0 <;> cases a1 <;> cases a2 <;> cases a3 <;> cases a4 <;>
        cases a5 <;>
        simp [legacyCleared, rewriteSyscallEventFilter, rewriteIdField,
          rewriteArg0Field, rewriteArg1Field, rewriteArg2Field, rewriteArg3Field,
          rewriteArg4Field, rewriteArg5Field]
    · cases oid <;> cases oret <;>
        simp [legacyCleared, rewriteSyscallEventFilter, rewriteIdField,
          rewriteRetField]
  · rintro ⟨ty, oid, a0, a1, a2, a3, a4, a5, oret, fe⟩ v h0 h1 h2 h3 h4 h5 h6 h7
    simp only at h0 h1 h2 h3 h4 h5 h6 h7
    subst h0; subst h1; subst h2; subst h3; subst h4; subst h5; subst h6; subst h7
    cases ty <;>
      simp [rewriteSyscallEventFilter, rewriteIdField, rewriteArg0Field,
        rewriteArg1Field, rewriteArg2Field, rewriteArg3Field, rewriteArg4Field,
        rewriteArg5Field, rewriteRetField, idEqExpr]

/-- Witness for C4: the id=5 example, the no-op example, the AND-fold
shape at id=7, an ENTER spec with id=5, arg0=4 and arg3=1 folding all
three constraints in application order, and an EXIT spec with id=2 and
ret=0 folding both. -/
theorem rewriteSyscallEventFilter_spec_witness :
    rewriteSyscallEventFilter (enterIdSef 5) =
      { emptyEnterSef with filterExpression := idEqExpr 5 }
    ∧ rewriteSyscallEventFilter emptyEnterSef = emptyEnterSef
    ∧ (rewriteSyscallEventFilter (enterIdSef 7)).filterExpression =
        LogicalAnd (idEqExpr 7) Expr.nullExpr
    ∧ (rewriteSyscallEventFilter
          { emptyEnterSef with
              id := some 5, arg0 := some 4, arg3 := some 1 }).filterExpression =
        LogicalAnd (Equal (Identifier "arg3") (valueOf (ExprVal.unsignedInt64 1)))
          (LogicalAnd (Equal (Identifier "arg0") (valueOf (ExprVal.unsignedInt64 4)))
            (idEqExpr 5))
    ∧ (rewriteSyscallEventFilter
          { emptyEnterSef with
              type := SyscallEventType.exit, id := some 2,
              ret := some 0 }).filterExpression =
        LogicalAnd (Equal (Identifier "ret") (valueOf (ExprVal.signedInt64 0)))
          (idEqExpr 2) :=
  ⟨rewriteSyscallEventFilter_spec.1,
   rewriteSyscallEventFilter_spec.2.1 emptyEnterSef rfl rfl rfl rfl rfl rfl rfl rfl,
   rewriteSyscallEventFilter_spec.2.2.2.1 (enterIdSef 7) 7 rfl rfl rfl rfl rfl rfl rfl rfl,
   by rw [rewriteSyscallEventFilter_spec.2.2.2.2]; rfl,
   by rw [rewriteSyscallEventFilter_spec.2.2.2.2]; rfl⟩

/-- Evaluation distributes over the nil-neutral `LogicalOr`: since a nil
tree matches nothing, gluing with OR is disjunction in all four
nil/non-nil combinations. -/
theorem evalExpr_logicalOr (s : String → Option ExprVal) (a b : Expr) :
    evalExpr s (LogicalOr a b) = (evalExpr s a || evalExpr s b) := by
  cases a <;> cases b <;> simp [LogicalOr, evalExpr]

/-- Evaluation of a left fold of `LogicalOr` is the disjunction of the
accumulator and the list elements. -/
theorem evalExpr_foldl_logicalOr (s : String → Option ExprVal) (fs : List Expr)
    (acc : Expr) :
    evalExpr s (fs.foldl LogicalOr acc) =
      (evalExpr s acc || fs.any (fun f => evalExpr s f)) := by
  induction fs generalizing acc with
  | nil => simp
  | cons f fs ih =>
      simp only [List.foldl_cons, List.any_cons, ih, evalExpr_logicalOr]
      rw [Bool.or_assoc]

/-- The filter loop's union accumulators are exactly left folds of
`LogicalOr` over the validated expressions of each direction. -/
theorem processFilters_foldl (events : List SyscallEventFilter) (r : LoopResult) :
    (events.foldl processOneFilter r).enterFilter =
      (validatedExprs SyscallEventType.enter events).foldl LogicalOr r.enterFilter
    ∧ (events.foldl processOneFilter r).exitFilter =
      (validatedExprs SyscallEventType.exit events).foldl LogicalOr r.exitFilter := by
  induction events generalizing r with
  | nil => exact ⟨rfl, rfl⟩
  | cons sef events ih =>
      simp only [List.foldl_cons, validatedExprs, List.filterMap_cons]
      by_cases hc : containsIDFilter (rewriteSyscallEventFilter sef).filterExpression
      · cases hty : (rewriteSyscallEventFilter sef).type <;>
          simp only [processOneFilter, hc, hty, Bool.not_true, if_neg, ite_false,
            ite_true, Bool.true_and, Bool.and_self, beq_self_eq_true, beq_iff_eq,
            reduceCtorEq, Bool.and_false, Bool.and_true, if_true, if_false,
            Bool.false_and, Bool.not_false] <;>
          exact ih _
      · simp only [processOneFilter, hc, Bool.false_and, Bool.not_false, ite_true,
          ite_false, if_false]
        exact ih _

/-- C5: the enter-direction union produced by the filter loop is the
repeated `LogicalOr` of the validated enter-direction filter expressions
with absence (nil) as the neutral element, and likewise for the exit
direction; such a union matches a sample iff at least one constituent
matches; in particular the union of id==2 and id==3 matches samples with
id 2 or id 3 and rejects id 4. -/
theorem filterUnion_spec :
    (∀ e, LogicalOr Expr.nullExpr e = e)
    ∧ (∀ e, LogicalOr e Expr.nullExpr = e)
    ∧ (∀ (s : String → Option ExprVal) (fs : List Expr),
        evalExpr s (fs.foldl LogicalOr Expr.nullExpr) =
          fs.any (fun f => evalExpr s f))
    ∧ (∀ events, (processFilters events).enterFilter =
        (validatedExprs SyscallEventType.enter events).foldl LogicalOr Expr.nullExpr)
    ∧ (∀ events, (processFilters events).exitFilter =
        (validatedExprs SyscallEventType.exit events).foldl LogicalOr Expr.nullExpr)
    ∧ evalExpr (sampleWithId 2)
        ([idEqExpr 2, idEqExpr 3].foldl LogicalOr Expr.nullExpr) = true
    ∧ evalExpr (sampleWithId 3)
        ([idEqExpr 2, idEqExpr 3].foldl LogicalOr Expr.nullExpr) = true
    ∧ evalExpr (sampleWithId 4)
        ([idEqExpr 2, idEqExpr 3].foldl LogicalOr Expr.nullExpr) = false := by
  refine ⟨fun e => by cases e <;> rfl, fun e => by cases e <;> rfl, ?_, ?_, ?_,
    by decide, by decide, by decide⟩
  · intro s fs
    rw [evalExpr_foldl_logicalOr]
    simp [evalExpr]
  · intro events
    exact (processFilters_foldl events ⟨Expr.nullExpr, Expr.nullExpr, []⟩).1
  · intro events
    exact (processFilters_foldl events ⟨Expr.nullExpr, Expr.nullExpr, []⟩).2

set_option maxRecDepth 8000 in
/-- One filter-loop step accumulates its diagnostics additively. -/
theorem processOneFilter_accum (sef : SyscallEventFilter) (e x : Expr)
    (D : List Action) :
    processOneFilter ⟨e, x, D⟩ sef =
      ⟨(processOneFilter ⟨e, x, []⟩ sef).enterFilter,
       (processOneFilter ⟨e, x, []⟩ sef).exitFilter,
       D ++ (processOneFilter ⟨e, x, []⟩ sef).actions⟩ := by
  by_cases hc : containsIDFilter (rewriteSyscallEventFilter sef).filterExpression
  · cases hty : (rewriteSyscallEventFilter sef).type <;>
      simp [processOneFilter, hc, hty]
  · simp [processOneFilter, hc]

/-- The filter loop accumulates diagnostics additively: running it with
initial diagnostics `D` prepends `D` to the diagnostics of a run started
empty and computes the same union filters. -/
theorem processFilters_accum (events : List SyscallEventFilter)
    (e x : Expr) (D : List Action) :
    events.foldl processOneFilter ⟨e, x, D⟩ =
      ⟨(events.foldl processOneFilter ⟨e, x, []⟩).enterFilter,
       (events.foldl processOneFilter ⟨e, x, []⟩).exitFilter,
       D ++ (events.foldl processOneFilter ⟨e, x, []⟩).actions⟩ := by
  induction events generalizing e x D with
  | nil => simp
  | cons sef events ih =>
      rcases hse : processOneFilter ⟨e, x, []⟩ sef with ⟨E0, X0, A0⟩
      simp only [List.foldl_cons, processOneFilter_accum, hse]
      rw [ih E0 X0 (D ++ A0), ih E0 X0 A0]
      simp [List.append_assoc]

/-- The probe registration phases depend on the filter list only through
the two union filters, so they agree between two filter lists producing
the same unions. -/
theorem registerSyscallEvents_phases (env : RegEnv) (st : SensorState)
    (events : List SyscallEventFilter) :
    registerSyscallEvents env st events =
      (let p := processFilters events
       let enter :=
         if p.enterFilter ≠ Expr.nullExpr then enterPhase env st else (st, [], [])
       let exitR :=
         if p.exitFilter ≠ Expr.nullExpr then exitPhase env enter.1
         else (enter.1, [], [])
       (exitR.1, p.actions ++ enter.2.1 ++ exitR.2.1, enter.2.2 ++ exitR.2.2)) :=
  rfl

/-- C8: a filter spec whose rewritten expression fails `containsIDFilter`
is dropped: the union filters (hence the probes registered, the sinks
created and the final sensor state) are the same as if the spec were
absent, the kprobe and tracepoint registration attempts are unchanged,
and exactly one more INVALID_ARGUMENT diagnostic is emitted, while the
remaining specs are processed unaffected. -/
theorem invalidFilter_dropped (pre post : List SyscallEventFilter)
    (sef : SyscallEventFilter)
    (h : containsIDFilter (rewriteSyscallEventFilter sef).filterExpression = false) :
    (processFilters (pre ++ sef :: post)).enterFilter =
      (processFilters (pre ++ post)).enterFilter
    ∧ (processFilters (pre ++ sef :: post)).exitFilter =
      (processFilters (pre ++ post)).exitFilter
    ∧ (∃ A, (processFilters (pre ++ post)).actions =
          (processFilters pre).actions ++ A
        ∧ (processFilters (pre ++ sef :: post)).actions =
          (processFilters pre).actions ++
            (Action.logStatus Code.INVALID_ARGUMENT
              "Wildcard syscall filter ignored" :: A))
    ∧ (∀ env st,
        (registerSyscallEvents env st (pre ++ sef :: post)).1 =
          (registerSyscallEvents env st (pre ++ post)).1
        ∧ (registerSyscallEvents env st (pre ++ sef :: post)).2.2 =
          (registerSyscallEvents env st (pre ++ post)).2.2
        ∧ kprobeAttempts (registerSyscallEvents env st (pre ++ sef :: post)).2.1 =
          kprobeAttempts (registerSyscallEvents env st (pre ++ post)).2.1
        ∧ tracepointAttempts
            (registerSyscallEvents env st (pre ++ sef :: post)).2.1 =
          tracepointAttempts (registerSyscallEvents env st (pre ++ post)).2.1
        ∧ (logsOf Code.INVALID_ARGUMENT
            (registerSyscallEvents env st (pre ++ sef :: post)).2.1).length =
          (logsOf Code.INVALID_ARGUMENT
            (registerSyscallEvents env st (pre ++ post)).2.1).length + 1) := by
  have hAll : processFilters (pre ++ sef :: post) =
      (sef :: post).foldl processOneFilter (processFilters pre) :=
    List.foldl_append _ _ _ _
  have hDel : processFilters (pre ++ post) =
      post.foldl processOneFilter (processFilters pre) :=
    List.foldl_append _ _ _ _
  have hstep : processOneFilter (processFilters pre) sef =
      ⟨(processFilters pre).enterFilter, (processFilters pre).exitFilter,
        (processFilters pre).actions ++
          [Action.logStatus Code.INVALID_ARGUMENT "Wildcard syscall filter ignored"]⟩ := by
    simp [processOneFilter, h]
  have hAll2 : processFilters (pre ++ sef :: post) =
      post.foldl processOneFilter
        ⟨(processFilters pre).enterFilter, (processFilters pre).exitFilter,
          (processFilters pre).actions ++
            [Action.logStatus Code.INVALID_ARGUMENT "Wildcard syscall filter ignored"]⟩ := by
    rw [hAll, List.foldl_cons, hstep]
  have hDel2 : processFilters (pre ++ post) =
      post.foldl processOneFilter
        ⟨(processFilters pre).enterFilter, (processFilters pre).exitFilter,
          (processFilters pre).actions⟩ := by
    rw [hDel]
  rcases hq : post.foldl processOneFilter
      ⟨(processFilters pre).enterFilter, (processFilters pre).exitFilter, []⟩
    with ⟨QE, QX, QA⟩
  have h1 : processFilters (pre ++ sef :: post) =
      ⟨QE, QX, (processFilters pre).actions ++
        (Action.logStatus Code.INVALID_ARGUMENT
          "Wildcard syscall filter ignored" :: QA)⟩ := by
    rw [hAll2, processFilters_accum, hq]
    simp
  have h2 : processFilters (pre ++ post) =
      ⟨QE, QX, (processFilters pre).actions ++ QA⟩ := by
    rw [hDel2, processFilters_accum, hq]
  refine ⟨by rw [h1, h2], by rw [h1, h2], ⟨QA, by rw [h2], by rw [h1]⟩, ?_⟩
  intro env st
  simp only [registerSyscallEvents, h1, h2]
  refine ⟨by trivial, by trivial, ?_, ?_, ?_⟩ <;>
    simp [kprobeAttempts, tracepointAttempts, logsOf, List.filterMap_append] <;>
    omega

/-- Witness for C8: dropping the id-less spec `arg0 == 4` (enter
direction) from a batch leaves the enter union of the valid spec `id==2`
unchanged and adds exactly one INVALID_ARGUMENT diagnostic. -/
theorem invalidFilter_dropped_witness :
    (processFilters [enterIdSef 2, { emptyEnterSef with arg0 := some 4 }]).enterFilter =
      (processFilters [enterIdSef 2]).enterFilter
    ∧ (logsOf Code.INVALID_ARGUMENT
        (registerSyscallEvents envAllOk ⟨0, 0, 0⟩
          [enterIdSef 2, { emptyEnterSef with arg0 := some 4 }]).2.1).length =
      (logsOf Code.INVALID_ARGUMENT
        (registerSyscallEvents envAllOk ⟨0, 0, 0⟩ [enterIdSef 2]).2.1).length + 1 := by
  have h := invalidFilter_dropped [enterIdSef 2] []
    { emptyEnterSef with arg0 := some 4 } (by decide)
  exact ⟨h.1, (h.2.2.2 envAllOk ⟨0, 0, 0⟩).2.2.2.2⟩

/-- Sentinel part, kernels of major version < 3, first name succeeds. -/
theorem sentinelPart_old_ok (env : RegEnv) (st : SensorState) (hm : env.major < 3)
    (h1 : env.tracepointOk "raw_syscalls/sys_enter" = true) :
    sentinelPart env st = ({ st with nextID := st.nextID + 1 },
      [Action.regTracepoint "raw_syscalls/sys_enter" true st.nextID]) := by
  simp [sentinelPart, tryRegisterTracepoint, hm, h1]

/-- Sentinel part, kernels of major version < 3, fallback name succeeds. -/
theorem sentinelPart_old_fallback (env : RegEnv) (st : SensorState)
    (hm : env.major < 3) (h1 : env.tracepointOk "raw_syscalls/sys_enter" = false)
    (h2 : env.tracepointOk "syscalls/sys_enter" = true) :
    sentinelPart env st = ({ st with nextID := st.nextID + 1 },
      [Action.regTracepoint "raw_syscalls/sys_enter" false st.nextID,
       Action.regTracepoint "syscalls/sys_enter" true st.nextID]) := by
  simp [sentinelPart, tryRegisterTracepoint, hm, h1, h2]

/-- Sentinel part, kernels of major version < 3, both names fail: one
diagnostic naming the last attempted candidate. -/
theorem sentinelPart_old_bothFail (env : RegEnv) (st : SensorState)
    (hm : env.major < 3) (h1 : env.tracepointOk "raw_syscalls/sys_enter" = false)
    (h2 : env.tracepointOk "syscalls/sys_enter" = false) :
    sentinelPart env st = (st,
      [Action.regTracepoint "raw_syscalls/sys_enter" false st.nextID,
       Action.regTracepoint "syscalls/sys_enter" false st.nextID,
       Action.logStatus Code.UNKNOWN
         "Could not register dummy syscall event syscalls/sys_enter"]) := by
  simp [sentinelPart, tryRegisterTracepoint, hm, h1, h2]

/-- Sentinel part, shared regime, fresh creation succeeding: count goes to
1, the sentinel id is recorded, exactly one registration is attempted. -/
theorem sentinelPart_new_fresh_ok (env : RegEnv) (st : SensorState)
    (hm : ¬ env.major < 3) (hc : st.dummySyscallEventCount + 1 = 1)
    (h1 : env.tracepointOk "raw_syscalls/sys_enter" = true) :
    sentinelPart env st =
      ({ st with
          dummySyscallEventCount := st.dummySyscallEventCount + 1,
          dummySyscallEventID := st.nextID,
          nextID := st.nextID + 1 },
       [Action.regTracepoint "raw_syscalls/sys_enter" true st.nextID]) := by
  simp [sentinelPart, tryRegisterTracepoint, hm, hc, h1]

/-- Sentinel part, shared regime, fresh creation failing: the count is
restored and one diagnostic is emitted; there is no second attempt. -/
theorem sentinelPart_new_fresh_fail (env : RegEnv) (st : SensorState)
    (hm : ¬ env.major < 3) (hc : st.dummySyscallEventCount + 1 = 1)
    (h1 : env.tracepointOk "raw_syscalls/sys_enter" = false) :
    sentinelPart env st =
      ({ st with dummySyscallEventCount := st.dummySyscallEventCount + 1 - 1 },
       [Action.regTracepoint "raw_syscalls/sys_enter" false st.nextID,
        Action.logStatus Code.UNKNOWN
          "Could not register dummy syscall event raw_syscalls/sys_enter"]) := by
  simp [sentinelPart, tryRegisterTracepoint, hm, hc, h1]

/-- Sentinel part, shared regime, subsequent subscription: the count is
incremented and no registration is attempted. -/
theorem sentinelPart_new_subsequent (env : RegEnv) (st : SensorState)
    (hm : ¬ env.major < 3) (hc : ¬ st.dummySyscallEventCount + 1 = 1) :
    sentinelPart env st =
      ({ st with dummySyscallEventCount := st.dummySyscallEventCount + 1 }, []) := by
  simp [sentinelPart, tryRegisterTracepoint, hm, hc]

/-- Enter kprobe part when the phase1 symbol registers. -/
theorem enterKprobePart_new_ok (env : RegEnv) (st : SensorState)
    (hk1 : env.kprobeOk syscallNewEnterKprobeAddress = true) :
    enterKprobePart env st = ({ st with nextID := st.nextID + 1 }, some st.nextID,
      [Action.regKprobe syscallNewEnterKprobeAddress syscallEnterKprobeFetchargs
        true st.nextID]) := by
  simp [enterKprobePart, tryRegisterKprobe, hk1]

/-- Enter kprobe part when phase1 fails and the old symbol registers:
exactly one further attempt, same fetchargs. -/
theorem enterKprobePart_fallback_ok (env : RegEnv) (st : SensorState)
    (hk1 : env.kprobeOk syscallNewEnterKprobeAddress = false)
    (hk2 : env.kprobeOk syscallOldEnterKprobeAddress = true) :
    enterKprobePart env st = ({ st with nextID := st.nextID + 1 }, some st.nextID,
      [Action.regKprobe syscallNewEnterKprobeAddress syscallEnterKprobeFetchargs
        false st.nextID,
       Action.regKprobe syscallOldEnterKprobeAddress syscallEnterKprobeFetchargs
        true st.nextID]) := by
  simp [enterKprobePart, tryRegisterKprobe, hk1, hk2]

/-- Enter kprobe part when both symbols fail. -/
theorem enterKprobePart_bothFail (env : RegEnv) (st : SensorState)
    (hk1 : env.kprobeOk syscallNewEnterKprobeAddress = false)
    (hk2 : env.kprobeOk syscallOldEnterKprobeAddress = false) :
    enterKprobePart env st = (st, none,
      [Action.regKprobe syscallNewEnterKprobeAddress syscallEnterKprobeFetchargs
        false st.nextID,
       Action.regKprobe syscallOldEnterKprobeAddress syscallEnterKprobeFetchargs
        false st.nextID]) := by
  simp [enterKprobePart, tryRegisterKprobe, hk1, hk2]

/-- Enter phase assembly when no kprobe symbol registered. -/
theorem enterPhase_kprobeNone (env : RegEnv) (st st2 : SensorState)
    (acts2 : List Action)
    (hk : enterKprobePart env (sentinelPart env st).1 = (st2, none, acts2)) :
    enterPhase env st = (st2,
      (sentinelPart env st).2 ++ acts2 ++
        [Action.logStatus Code.UNKNOWN
          ("Could not register syscall enter kprobe " ++ syscallOldEnterKprobeAddress)],
      []) := by
  simp [enterPhase, hk]

/-- Enter phase assembly when the kprobe registered and the event sink
was created. -/
theorem enterPhase_sinkOk (env : RegEnv) (st st2 : SensorState) (kid : Nat)
    (acts2 : List Action)
    (hk : enterKprobePart env (sentinelPart env st).1 = (st2, some kid, acts2))
    (hs : env.enterSinkOk = true) :
    enterPhase env st = (st2,
      (sentinelPart env st).2 ++ acts2 ++ [Action.addEventSink true true],
      [{ eventID := kid, hasDummyHook := decide (3 ≤ env.major) }]) := by
  simp [enterPhase, hk, hs]

/-- Enter phase assembly on the rollback path (sink creation failed, new
regime) when the decremented count does not reach zero: the kprobe is
unregistered and the sentinel is kept. -/
theorem enterPhase_sinkFail_keep (env : RegEnv) (st st2 : SensorState) (kid : Nat)
    (acts2 : List Action)
    (hk : enterKprobePart env (sentinelPart env st).1 = (st2, some kid, acts2))
    (hs : env.enterSinkOk = false) (hm : 3 ≤ env.major)
    (hc : ¬ st2.dummySyscallEventCount - 1 = 0) :
    enterPhase env st =
      ({ st2 with dummySyscallEventCount := st2.dummySyscallEventCount - 1 },
       (sentinelPart env st).2 ++ acts2 ++
         [Action.addEventSink true false,
          Action.logStatus Code.UNKNOWN
            "Invalid filter expression for syscall enter filter",
          Action.unregisterEvent kid],
       []) := by
  simp [enterPhase, hk, hs, hm, hc]

/-- Enter phase assembly on the rollback path (sink creation failed, new
regime) when the decremented count reaches zero: the kprobe and then the
sentinel are unregistered. -/
theorem enterPhase_sinkFail_release (env : RegEnv) (st st2 : SensorState) (kid : Nat)
    (acts2 : List Action)
    (hk : enterKprobePart env (sentinelPart env st).1 = (st2, some kid, acts2))
    (hs : env.enterSinkOk = false) (hm : 3 ≤ env.major)
    (hc : st2.dummySyscallEventCount - 1 = 0) :
    enterPhase env st =
      ({ st2 with dummySyscallEventCount := st2.dummySyscallEventCount - 1 },
       (sentinelPart env st).2 ++ acts2 ++
         [Action.addEventSink true false,
          Action.logStatus Code.UNKNOWN
            "Invalid filter expression for syscall enter filter",
          Action.unregisterEvent kid,
          Action.unregisterEvent st2.dummySyscallEventID],
       []) := by
  simp [enterPhase, hk, hs, hm, hc, List.append_assoc]

/-- Enter phase assembly on the rollback path for kernels of major
version < 3: only the kprobe is unregistered. -/
theorem enterPhase_sinkFail_old (env : RegEnv) (st st2 : SensorState) (kid : Nat)
    (acts2 : List Action)
    (hk : enterKprobePart env (sentinelPart env st).1 = (st2, some kid, acts2))
    (hs : env.enterSinkOk = false) (hm : ¬ 3 ≤ env.major) :
    enterPhase env st = (st2,
      (sentinelPart env st).2 ++ acts2 ++
        [Action.addEventSink true false,
         Action.logStatus Code.UNKNOWN
           "Invalid filter expression for syscall enter filter",
         Action.unregisterEvent kid],
      []) := by
  simp [enterPhase, hk, hs, hm]

/-- Exit tracepoint part when the first name registers. -/
theorem exitTracepointPart_ok (env : RegEnv) (st : SensorState)
    (h1 : env.tracepointOk "raw_syscalls/sys_exit" = true) :
    exitTracepointPart env st = ({ st with nextID := st.nextID + 1 },
      some st.nextID,
      [Action.regTracepoint "raw_syscalls/sys_exit" true st.nextID]) := by
  simp [exitTracepointPart, tryRegisterTracepoint, h1]

/-- Exit tracepoint part when the first name fails and the fallback
registers. -/
theorem exitTracepointPart_fallback (env : RegEnv) (st : SensorState)
    (h1 : env.tracepointOk "raw_syscalls/sys_exit" = false)
    (h2 : env.tracepointOk "syscalls/sys_exit" = true) :
    exitTracepointPart env st = ({ st with nextID := st.nextID + 1 },
      some st.nextID,
      [Action.regTracepoint "raw_syscalls/sys_exit" false st.nextID,
       Action.regTracepoint "syscalls/sys_exit" true st.nextID]) := by
  simp [exitTracepointPart, tryRegisterTracepoint, h1, h2]

/-- Exit tracepoint part when both names fail. -/
theorem exitTracepointPart_bothFail (env : RegEnv) (st : SensorState)
    (h1 : env.tracepointOk "raw_syscalls/sys_exit" = false)
    (h2 : env.tracepointOk "syscalls/sys_exit" = false) :
    exitTracepointPart env st = (st, none,
      [Action.regTracepoint "raw_syscalls/sys_exit" false st.nextID,
       Action.regTracepoint "syscalls/sys_exit" false st.nextID]) := by
  simp [exitTracepointPart, tryRegisterTracepoint, h1, h2]

/-- Exit phase assembly when the tracepoint registered and the sink was
created. -/
theorem exitPhase_sinkOk (env : RegEnv) (st st1 : SensorState) (eid : Nat)
    (acts1 : List Action)
    (ht : exitTracepointPart env st = (st1, some eid, acts1))
    (hs : env.exitSinkOk = true) :
    exitPhase env st = (st1, acts1 ++ [Action.addEventSink false true],
      [{ eventID := eid, hasDummyHook := false }]) := by
  simp [exitPhase, ht, hs]

/-- Exit phase assembly when the tracepoint registered but the sink
failed: the tracepoint is unregistered. -/
theorem exitPhase_sinkFail (env : RegEnv) (st st1 : SensorState) (eid : Nat)
    (acts1 : List Action)
    (ht : exitTracepointPart env st = (st1, some eid, acts1))
    (hs : env.exitSinkOk = false) :
    exitPhase env st = (st1,
      acts1 ++
        [Action.addEventSink false false,
         Action.logStatus Code.UNKNOWN
           "Invalid filter expression for syscall exit filter",
         Action.unregisterEvent eid],
      []) := by
  simp [exitPhase, ht, hs]

/-- Exit phase assembly when no tracepoint name registered. -/
theorem exitPhase_none (env : RegEnv) (st st1 : SensorState) (acts1 : List Action)
    (ht : exitTracepointPart env st = (st1, none, acts1)) :
    exitPhase env st = (st1,
      acts1 ++ [Action.logStatus Code.UNKNOWN
        "Could not register tracepoint syscalls/sys_exit"],
      []) := by
  simp [exitPhase, ht]

/-- A trace consisting only of diagnostics registers nothing, touches no
kernel state and is always valid. -/
theorem logs_neutral (tr : List Action)
    (h : ∀ a ∈ tr, ∃ c m, a = Action.logStatus c m) :
    kprobeAttempts tr = [] ∧ tracepointAttempts tr = [] ∧ sinkAttempts tr = []
    ∧ (∀ live, liveFrom live tr = live)
    ∧ (∀ live, validFrom live tr = true) := by
  induction tr with
  | nil => simp [kprobeAttempts, tracepointAttempts, sinkAttempts, liveFrom, validFrom]
  | cons a tr ih =>
      obtain ⟨c, m, rfl⟩ := h _ (List.mem_cons_self _ _)
      have ih' := ih (fun a ha => h a (List.mem_cons_of_mem _ ha))
      refine ⟨?_, ?_, ?_, ?_, ?_⟩
      · simpa [kprobeAttempts, List.filterMap_cons] using ih'.1
      · simpa [tracepointAttempts, List.filterMap_cons] using ih'.2.1
      · simpa [sinkAttempts, List.filterMap_cons] using ih'.2.2.1
      · intro live
        have := ih'.2.2.2.1 live
        simpa [liveFrom, applyAction] using this
      · intro live
        have := ih'.2.2.2.2 live
        simpa [validFrom, applyAction] using this

/-- Diagnostics of kind INVALID_ARGUMENT contribute no UNKNOWN
diagnostics. -/
theorem logsOf_unknown_of_invalid (tr : List Action)
    (h : ∀ a ∈ tr, ∃ m, a = Action.logStatus Code.INVALID_ARGUMENT m) :
    logsOf Code.UNKNOWN tr = [] := by
  induction tr with
  | nil => rfl
  | cons a tr ih =>
      obtain ⟨m, rfl⟩ := h _ (List.mem_cons_self _ _)
      have ih' := ih (fun a ha => h a (List.mem_cons_of_mem _ ha))
      simpa [logsOf, List.filterMap_cons] using ih'

/-- Each filter-loop step only appends INVALID_ARGUMENT diagnostics. -/
theorem processOneFilter_actions_sub (r : LoopResult) (sef : SyscallEventFilter) :
    ∀ a ∈ (processOneFilter r sef).actions,
      a ∈ r.actions ∨ ∃ m, a = Action.logStatus Code.INVALID_ARGUMENT m := by
  intro a ha
  by_cases hc : containsIDFilter (rewriteSyscallEventFilter sef).filterExpression
  · cases hty : (rewriteSyscallEventFilter sef).type <;>
      simp [processOneFilter, hc, hty] at ha <;> tauto
  · simp [processOneFilter, hc] at ha
    tauto

/-- All diagnostics of the filter loop are INVALID_ARGUMENT. -/
theorem processFilters_actions_invalid (events : List SyscallEventFilter)
    (r : LoopResult)
    (hr : ∀ a ∈ r.actions, ∃ m, a = Action.logStatus Code.INVALID_ARGUMENT m) :
    ∀ a ∈ (events.foldl processOneFilter r).actions,
      ∃ m, a = Action.logStatus Code.INVALID_ARGUMENT m := by
  induction events generalizing r with
  | nil => exact hr
  | cons sef events ih =>
      refine ih _ ?_
      intro a ha
      rcases processOneFilter_actions_sub r sef a ha with h | h
      · exact hr a h
      · exact h

/-- The sentinel part emits no kprobe registrations and no sink
attempts. -/
theorem sentinelPart_no_kprobes (env : RegEnv) (st : SensorState) :
    kprobeAttempts (sentinelPart env st).2 = []
    ∧ sinkAttempts (sentinelPart env st).2 = [] := by
  unfold sentinelPart tryRegisterTracepoint
  by_cases hm : env.major < 3 <;>
    cases h1 : env.tracepointOk "raw_syscalls/sys_enter" <;>
    cases h2 : env.tracepointOk "syscalls/sys_enter" <;>
    by_cases hc : st.dummySyscallEventCount + 1 = 1 <;>
    simp [hm, h1, h2, hc, kprobeAttempts, sinkAttempts]

/-- The sentinel part never emits the enter-kprobe failure diagnostic. -/
theorem sentinelPart_no_kprobeLog (env : RegEnv) (st : SensorState) :
    ("Could not register syscall enter kprobe " ++ syscallOldEnterKprobeAddress) ∉
      logsOf Code.UNKNOWN (sentinelPart env st).2 := by
  unfold sentinelPart tryRegisterTracepoint
  by_cases hm : env.major < 3 <;>
    cases h1 : env.tracepointOk "raw_syscalls/sys_enter" <;>
    cases h2 : env.tracepointOk "syscalls/sys_enter" <;>
    by_cases hc : st.dummySyscallEventCount + 1 = 1 <;>
    simp [hm, h1, h2, hc, logsOf, syscallOldEnterKprobeAddress]

/-- The exit phase never emits the enter-kprobe failure diagnostic, and
its sink attempts are exit-direction only. -/
theorem exitPhase_no_enter_artifacts (env : RegEnv) (st : SensorState) :
    ("Could not register syscall enter kprobe " ++ syscallOldEnterKprobeAddress) ∉
      logsOf Code.UNKNOWN (exitPhase env st).2.1
    ∧ kprobeAttempts (exitPhase env st).2.1 = []
    ∧ (sinkAttempts (exitPhase env st).2.1).filter (fun p => p.1) = [] := by
  unfold exitPhase exitTracepointPart tryRegisterTracepoint
  cases h1 : env.tracepointOk "raw_syscalls/sys_exit" <;>
    cases h2 : env.tracepointOk "syscalls/sys_exit" <;>
    cases hs : env.exitSinkOk <;>
    simp [h1, h2, hs, logsOf, kprobeAttempts, sinkAttempts,
      syscallOldEnterKprobeAddress]

/-- The kprobe attempts of the enter phase are exactly those of its
kprobe part. -/
theorem enterPhase_kprobeAttempts (env : RegEnv) (st : SensorState) :
    kprobeAttempts (enterPhase env st).2.1 =
      kprobeAttempts (enterKprobePart env (sentinelPart env st).1).2.2 := by
  rcases hk : enterKprobePart env (sentinelPart env st).1 with ⟨st2, r, acts2⟩
  rcases r with _ | kid
  · rw [enterPhase_kprobeNone env st st2 acts2 hk]
    simp [kprobeAttempts, List.filterMap_append,
      (by simpa [kprobeAttempts] using (sentinelPart_no_kprobes env st).1 :
        List.filterMap _ (sentinelPart env st).2 = [])]
  · by_cases hs : env.enterSinkOk = true
    · rw [enterPhase_sinkOk env st st2 kid acts2 hk hs]
      simp [kprobeAttempts, List.filterMap_append,
        (by simpa [kprobeAttempts] using (sentinelPart_no_kprobes env st).1 :
          List.filterMap _ (sentinelPart env st).2 = [])]
    · have hs' : env.enterSinkOk = false := by
        cases h : env.enterSinkOk
        · rfl
        · exact absurd h hs
      by_cases hm : 3 ≤ env.major
      · by_cases hc : st2.dummySyscallEventCount - 1 = 0
        · rw [enterPhase_sinkFail_release env st st2 kid acts2 hk hs' hm hc]
          simp [kprobeAttempts, List.filterMap_append,
            (by simpa [kprobeAttempts] using (sentinelPart_no_kprobes env st).1 :
              List.filterMap _ (sentinelPart env st).2 = [])]
        · rw [enterPhase_sinkFail_keep env st st2 kid acts2 hk hs' hm hc]
          simp [kprobeAttempts, List.filterMap_append,
            (by simpa [kprobeAttempts] using (sentinelPart_no_kprobes env st).1 :
              List.filterMap _ (sentinelPart env st).2 = [])]
      · rw [enterPhase_sinkFail_old env st st2 kid acts2 hk hs' hm]
        simp [kprobeAttempts, List.filterMap_append,
          (by simpa [kprobeAttempts] using (sentinelPart_no_kprobes env st).1 :
            List.filterMap _ (sentinelPart env st).2 = [])]

/-- C6: when an enter union filter is present, the dynamic enter probe is
first attempted at `syscall_trace_enter_phase1`; exactly when that fails,
one further attempt is made at `syscall_trace_enter` with the same
fetchargs; if both fail, no enter sink is attempted and exactly one
UNKNOWN diagnostic naming the second symbol is emitted; the exit
direction is unaffected by the kprobe outcomes. -/
theorem enterKprobeFallback_spec (env : RegEnv) (st : SensorState)
    (events : List SyscallEventFilter)
    (h : (processFilters events).enterFilter ≠ Expr.nullExpr) :
    kprobeAttempts (registerSyscallEvents env st events).2.1 =
      (if env.kprobeOk syscallNewEnterKprobeAddress then
        [(syscallNewEnterKprobeAddress, syscallEnterKprobeFetchargs, true)]
       else
        [(syscallNewEnterKprobeAddress, syscallEnterKprobeFetchargs, false),
         (syscallOldEnterKprobeAddress, syscallEnterKprobeFetchargs,
           env.kprobeOk syscallOldEnterKprobeAddress)])
    ∧ (env.kprobeOk syscallNewEnterKprobeAddress = false →
        env.kprobeOk syscallOldEnterKprobeAddress = false →
        (sinkAttempts (registerSyscallEvents env st events).2.1).filter
            (fun p => p.1) = []
        ∧ (logsOf Code.UNKNOWN (registerSyscallEvents env st events).2.1).count
            ("Could not register syscall enter kprobe " ++
              syscallOldEnterKprobeAddress) = 1)
    ∧ (∀ f st', exitPhase { env with kprobeOk := f } st' = exitPhase env st') := by
  have hloop : ∀ a ∈ (processFilters events).actions,
      ∃ m, a = Action.logStatus Code.INVALID_ARGUMENT m :=
    processFilters_actions_invalid events ⟨Expr.nullExpr, Expr.nullExpr, []⟩
      (by simp)
  have hln := logs_neutral (processFilters events).actions
    (fun a ha => (hloop a ha).elim (fun m hm => ⟨Code.INVALID_ARGUMENT, m, hm⟩))
  have hsplit : (registerSyscallEvents env st events).2.1 =
      (processFilters events).actions ++ (enterPhase env st).2.1 ++
        (if (processFilters events).exitFilter ≠ Expr.nullExpr
         then (exitPhase env (enterPhase env st).1).2.1 else []) := by
    simp only [registerSyscallEvents]
    rw [if_pos h]
    by_cases hx : (processFilters events).exitFilter ≠ Expr.nullExpr
    · rw [if_pos hx, if_pos hx]
    · rw [if_neg hx, if_neg hx]
  have kapp : ∀ (a b : List Action),
      kprobeAttempts (a ++ b) = kprobeAttempts a ++ kprobeAttempts b :=
    fun a b => List.filterMap_append _ _ _
  have hexitk : kprobeAttempts
      (if (processFilters events).exitFilter ≠ Expr.nullExpr
       then (exitPhase env (enterPhase env st).1).2.1 else []) = [] := by
    by_cases hx : (processFilters events).exitFilter ≠ Expr.nullExpr
    · rw [if_pos hx]
      exact (exitPhase_no_enter_artifacts env _).2.1
    · rw [if_neg hx]
      rfl
  refine ⟨?_, ?_, ?_⟩
  · rw [hsplit, kapp, kapp, hln.1, hexitk, enterPhase_kprobeAttempts]
    simp only [List.nil_append, List.append_nil]
    cases hk1 : env.kprobeOk syscallNewEnterKprobeAddress
    · cases hk2 : env.kprobeOk syscallOldEnterKprobeAddress
      · rw [enterKprobePart_bothFail env _ hk1 hk2]
        simp [kprobeAttempts, hk1, hk2]
      · rw [enterKprobePart_fallback_ok env _ hk1 hk2]
        simp [kprobeAttempts, hk1, hk2]
    · rw [enterKprobePart_new_ok env _ hk1]
      simp [kprobeAttempts, hk1]
  · intro hk1 hk2
    have hkfail := enterKprobePart_bothFail env (sentinelPart env st).1 hk1 hk2
    have hActs : (enterPhase env st).2.1 =
        (sentinelPart env st).2 ++
          [Action.regKprobe syscallNewEnterKprobeAddress syscallEnterKprobeFetchargs
            false (sentinelPart env st).1.nextID,
           Action.regKprobe syscallOldEnterKprobeAddress syscallEnterKprobeFetchargs
            false (sentinelPart env st).1.nextID] ++
          [Action.logStatus Code.UNKNOWN
            ("Could not register syscall enter kprobe " ++
              syscallOldEnterKprobeAddress)] := by
      rw [enterPhase_kprobeNone env st _ _ hkfail]
    constructor
    · rw [hsplit, hActs]
      have hexits : (sinkAttempts
          (if (processFilters events).exitFilter ≠ Expr.nullExpr
           then (exitPhase env (enterPhase env st).1).2.1 else [])).filter
            (fun p => p.1) = [] := by
        by_cases hx : (processFilters events).exitFilter ≠ Expr.nullExpr
        · rw [if_pos hx]
          exact (exitPhase_no_enter_artifacts env _).2.2
        · rw [if_neg hx]
          rfl
      have sapp : ∀ (a b : List Action),
          sinkAttempts (a ++ b) = sinkAttempts a ++ sinkAttempts b :=
        fun a b => List.filterMap_append _ _ _
      simp only [sapp, List.filter_append, hln.2.2.1,
        (sentinelPart_no_kprobes env st).2, hexits]
      simp [sinkAttempts]
    · rw [hsplit, hActs]
      have hexitl : ("Could not register syscall enter kprobe " ++
            syscallOldEnterKprobeAddress) ∉ logsOf Code.UNKNOWN
          (if (processFilters events).exitFilter ≠ Expr.nullExpr
           then (exitPhase env (enterPhase env st).1).2.1 else []) := by
        by_cases hx : (processFilters events).exitFilter ≠ Expr.nullExpr
        · rw [if_pos hx]
          exact (exitPhase_no_enter_artifacts env _).1
        · rw [if_neg hx]
          simp [logsOf]
      have lapp : ∀ (a b : List Action),
          logsOf Code.UNKNOWN (a ++ b) =
            logsOf Code.UNKNOWN a ++ logsOf Code.UNKNOWN b :=
        fun a b => List.filterMap_append _ _ _
      simp only [lapp, logsOf_unknown_of_invalid _ hloop, List.nil_append,
        List.count_append]
      rw [List.count_eq_zero.mpr (sentinelPart_no_kprobeLog env st),
        List.count_eq_zero.mpr hexitl]
      simp [logsOf]
  · intro f st'
    rcases env with ⟨M, T, K, ES, XS⟩
    rfl

/-- Witness for C6: with both kprobe symbols failing, a subscription with
one valid enter filter attempts phase1 then the old symbol, and emits
exactly one UNKNOWN diagnostic naming the old symbol. -/
theorem enterKprobeFallback_spec_witness :
    kprobeAttempts (registerSyscallEvents envKprobesFail ⟨0, 0, 0⟩
        [enterIdSef 2]).2.1 =
      [(syscallNewEnterKprobeAddress, syscallEnterKprobeFetchargs, false),
       (syscallOldEnterKprobeAddress, syscallEnterKprobeFetchargs, false)]
    ∧ (logsOf Code.UNKNOWN (registerSyscallEvents envKprobesFail ⟨0, 0, 0⟩
        [enterIdSef 2]).2.1).count
        ("Could not register syscall enter kprobe " ++
          syscallOldEnterKprobeAddress) = 1 := by
  have h := enterKprobeFallback_spec envKprobesFail ⟨0, 0, 0⟩ [enterIdSef 2]
    (by decide)
  exact ⟨h.1.trans (by decide), (h.2.1 rfl rfl).2⟩

/-- The enter phase trace always starts with the sentinel part's trace. -/
theorem enterPhase_starts_with_sentinel (env : RegEnv) (st : SensorState) :
    ∃ rest, (enterPhase env st).2.1 = (sentinelPart env st).2 ++ rest := by
  rcases hk : enterKprobePart env (sentinelPart env st).1 with ⟨st2, r, acts2⟩
  rcases r with _ | kid
  · exact ⟨_, by rw [enterPhase_kprobeNone env st st2 acts2 hk, List.append_assoc]⟩
  · by_cases hs : env.enterSinkOk = true
    · exact ⟨_, by rw [enterPhase_sinkOk env st st2 kid acts2 hk hs,
        List.append_assoc]⟩
    · have hs' : env.enterSinkOk = false := by
        cases h : env.enterSinkOk
        · rfl
        · exact absurd h hs
      by_cases hm : 3 ≤ env.major
      · by_cases hc : st2.dummySyscallEventCount - 1 = 0
        · exact ⟨_, by rw [enterPhase_sinkFail_release env st st2 kid acts2 hk
            hs' hm hc, List.append_assoc]⟩
        · exact ⟨_, by rw [enterPhase_sinkFail_keep env st st2 kid acts2 hk
            hs' hm hc, List.append_assoc]⟩
      · exact ⟨_, by rw [enterPhase_sinkFail_old env st st2 kid acts2 hk hs' hm,
          List.append_assoc]⟩

/-- Counterexample to C7: on a kernel of major version 3, when
`raw_syscalls/sys_enter` fails during sentinel creation, the failure
diagnostic is emitted without any retry against `syscalls/sys_enter`
(exactly one tracepoint attempt appears in the whole trace). -/
theorem sentinelFallback_cex :
    tracepointAttempts (registerSyscallEvents envSentinelFails ⟨0, 0, 0⟩
        [enterIdSef 2]).2.1 =
      [("raw_syscalls/sys_enter", false)]
    ∧ logsOf Code.UNKNOWN (registerSyscallEvents envSentinelFails ⟨0, 0, 0⟩
        [enterIdSef 2]).2.1 =
      ["Could not register dummy syscall event raw_syscalls/sys_enter"] := by
  decide

/-- C7 (amended): the `raw_syscalls/sys_enter` → `syscalls/sys_enter`
retry for the sentinel happens only in the per-subscription regime
(kernel major version < 3), where the diagnostic names the last
candidate; in the shared regime (major version >= 3) a fresh sentinel
creation attempts only `raw_syscalls/sys_enter` and on failure emits the
diagnostic with no second attempt. -/
theorem sentinelFallback_amended :
    (∀ (env : RegEnv) (st : SensorState), env.major < 3 →
      env.tracepointOk "raw_syscalls/sys_enter" = false →
      env.tracepointOk "syscalls/sys_enter" = true →
      (sentinelPart env st).2 =
        [Action.regTracepoint "raw_syscalls/sys_enter" false st.nextID,
         Action.regTracepoint "syscalls/sys_enter" true st.nextID])
    ∧ (∀ (env : RegEnv) (st : SensorState), env.major < 3 →
        env.tracepointOk "raw_syscalls/sys_enter" = false →
        env.tracepointOk "syscalls/sys_enter" = false →
        (sentinelPart env st).2 =
          [Action.regTracepoint "raw_syscalls/sys_enter" false st.nextID,
           Action.regTracepoint "syscalls/sys_enter" false st.nextID,
           Action.logStatus Code.UNKNOWN
             "Could not register dummy syscall event syscalls/sys_enter"])
    ∧ (∀ (env : RegEnv) (st : SensorState), ¬ env.major < 3 →
        st.dummySyscallEventCount + 1 = 1 →
        env.tracepointOk "raw_syscalls/sys_enter" = false →
        (sentinelPart env st).2 =
          [Action.regTracepoint "raw_syscalls/sys_enter" false st.nextID,
           Action.logStatus Code.UNKNOWN
             "Could not register dummy syscall event raw_syscalls/sys_enter"])
    ∧ (∀ (env : RegEnv) (st : SensorState),
        ∃ rest, (enterPhase env st).2.1 = (sentinelPart env st).2 ++ rest) := by
  refine ⟨?_, ?_, ?_, enterPhase_starts_with_sentinel⟩
  · intro env st hm h1 h2
    rw [sentinelPart_old_fallback env st hm h1 h2]
  · intro env st hm h1 h2
    rw [sentinelPart_old_bothFail env st hm h1 h2]
  · intro env st hm hc h1
    rw [sentinelPart_new_fresh_fail env st hm hc h1]

/-- Witness for the amended C7: a major-version-2 kernel with the raw
name failing retries the plain name; a major-version-3 kernel with the
raw name failing emits the diagnostic with no retry. -/
theorem sentinelFallback_amended_witness :
    (sentinelPart envOldKernelRawFails ⟨0, 0, 0⟩).2 =
      [Action.regTracepoint "raw_syscalls/sys_enter" false 0,
       Action.regTracepoint "syscalls/sys_enter" true 0]
    ∧ (sentinelPart envSentinelFails ⟨0, 0, 0⟩).2 =
      [Action.regTracepoint "raw_syscalls/sys_enter" false 0,
       Action.logStatus Code.UNKNOWN
         "Could not register dummy syscall event raw_syscalls/sys_enter"] :=
  ⟨sentinelFallback_amended.1 envOldKernelRawFails ⟨0, 0, 0⟩ (by decide) rfl rfl,
   sentinelFallback_amended.2.2.1 envSentinelFails ⟨0, 0, 0⟩ (by decide) rfl rfl⟩

/-- C3: if enter event-sink creation fails after the enter kprobe
registered, the registrar rolls back: it unregisters the kprobe, and on
kernels of major version >= 3 decrements the sentinel count, unregistering
the sentinel exactly when the count reaches 0. With a fresh sentinel
(count 0 -> 1) both the kprobe and the sentinel end up unregistered and
the count is back to 0 (shown for the phase1 kprobe and for the fallback
kprobe); with a previously shared sentinel (count > 0) only the kprobe is
released and the count is restored; and in the fresh case the kernel
event set is left exactly as it was. -/
theorem enterSinkRollback_spec (env : RegEnv) (st : SensorState)
    (hm : 3 ≤ env.major)
    (hraw : env.tracepointOk "raw_syscalls/sys_enter" = true)
    (hs : env.enterSinkOk = false) :
    (env.kprobeOk syscallNewEnterKprobeAddress = true →
      st.dummySyscallEventCount = 0 →
      enterPhase env st =
        ({ st with
            dummySyscallEventCount := 0,
            dummySyscallEventID := st.nextID,
            nextID := st.nextID + 2 },
         [Action.regTracepoint "raw_syscalls/sys_enter" true st.nextID,
          Action.regKprobe syscallNewEnterKprobeAddress syscallEnterKprobeFetchargs
            true (st.nextID + 1),
          Action.addEventSink true false,
          Action.logStatus Code.UNKNOWN
            "Invalid filter expression for syscall enter filter",
          Action.unregisterEvent (st.nextID + 1),
          Action.unregisterEvent st.nextID], []))
    ∧ (env.kprobeOk syscallNewEnterKprobeAddress = false →
        env.kprobeOk syscallOldEnterKprobeAddress = true →
        st.dummySyscallEventCount = 0 →
        enterPhase env st =
          ({ st with
              dummySyscallEventCount := 0,
              dummySyscallEventID := st.nextID,
              nextID := st.nextID + 2 },
           [Action.regTracepoint "raw_syscalls/sys_enter" true st.nextID,
            Action.regKprobe syscallNewEnterKprobeAddress
              syscallEnterKprobeFetchargs false (st.nextID + 1),
            Action.regKprobe syscallOldEnterKprobeAddress
              syscallEnterKprobeFetchargs true (st.nextID + 1),
            Action.addEventSink true false,
            Action.logStatus Code.UNKNOWN
              "Invalid filter expression for syscall enter filter",
            Action.unregisterEvent (st.nextID + 1),
            Action.unregisterEvent st.nextID], []))
    ∧ (env.kprobeOk syscallNewEnterKprobeAddress = true →
        0 < st.dummySyscallEventCount →
        enterPhase env st =
          ({ st with nextID := st.nextID + 1 },
           [Action.regKprobe syscallNewEnterKprobeAddress
              syscallEnterKprobeFetchargs true st.nextID,
            Action.addEventSink true false,
            Action.logStatus Code.UNKNOWN
              "Invalid filter expression for syscall enter filter",
            Action.unregisterEvent st.nextID], []))
    ∧ (env.kprobeOk syscallNewEnterKprobeAddress = true →
        st.dummySyscallEventCount = 0 →
        ∀ live : List (Nat × String), (∀ p ∈ live, p.1 < st.nextID) →
          liveFrom live (enterPhase env st).2.1 = live) := by
  have hm' : ¬ env.major < 3 := by omega
  have hfresh : env.kprobeOk syscallNewEnterKprobeAddress = true →
      st.dummySyscallEventCount = 0 →
      enterPhase env st =
        ({ st with
            dummySyscallEventCount := 0,
            dummySyscallEventID := st.nextID,
            nextID := st.nextID + 2 },
         [Action.regTracepoint "raw_syscalls/sys_enter" true st.nextID,
          Action.regKprobe syscallNewEnterKprobeAddress syscallEnterKprobeFetchargs
            true (st.nextID + 1),
          Action.addEventSink true false,
          Action.logStatus Code.UNKNOWN
            "Invalid filter expression for syscall enter filter",
          Action.unregisterEvent (st.nextID + 1),
          Action.unregisterEvent st.nextID], []) := by
    intro hk1 hc0
    have hc1 : st.dummySyscallEventCount + 1 = 1 := by omega
    have hsent := sentinelPart_new_fresh_ok env st hm' hc1 hraw
    have hkp : enterKprobePart env (sentinelPart env st).1 =
        ({ st with
            dummySyscallEventCount := st.dummySyscallEventCount + 1,
            dummySyscallEventID := st.nextID,
            nextID := st.nextID + 2 },
         some (st.nextID + 1),
         [Action.regKprobe syscallNewEnterKprobeAddress
            syscallEnterKprobeFetchargs true (st.nextID + 1)]) := by
      rw [hsent]
      simpa using enterKprobePart_new_ok env _ hk1
    have hrel := enterPhase_sinkFail_release env st _ _ _ hkp hs hm
      (by simp [hc0])
    rw [hrel, hsent]
    simp [hc0]
  refine ⟨hfresh, ?_, ?_, ?_⟩
  · intro hk1 hk2 hc0
    have hc1 : st.dummySyscallEventCount + 1 = 1 := by omega
    have hsent := sentinelPart_new_fresh_ok env st hm' hc1 hraw
    have hkp : enterKprobePart env (sentinelPart env st).1 =
        ({ st with
            dummySyscallEventCount := st.dummySyscallEventCount + 1,
            dummySyscallEventID := st.nextID,
            nextID := st.nextID + 2 },
         some (st.nextID + 1),
         [Action.regKprobe syscallNewEnterKprobeAddress
            syscallEnterKprobeFetchargs false (st.nextID + 1),
          Action.regKprobe syscallOldEnterKprobeAddress
            syscallEnterKprobeFetchargs true (st.nextID + 1)]) := by
      rw [hsent]
      simpa using enterKprobePart_fallback_ok env _ hk1 hk2
    have hrel := enterPhase_sinkFail_release env st _ _ _ hkp hs hm
      (by simp [hc0])
    rw [hrel, hsent]
    simp [hc0]
  · intro hk1 hcpos
    have hc1 : ¬ st.dummySyscallEventCount + 1 = 1 := by omega
    have hsent := sentinelPart_new_subsequent env st hm' hc1
    have hkp : enterKprobePart env (sentinelPart env st).1 =
        ({ st with
            dummySyscallEventCount := st.dummySyscallEventCount + 1,
            nextID := st.nextID + 1 },
         some st.nextID,
         [Action.regKprobe syscallNewEnterKprobeAddress
            syscallEnterKprobeFetchargs true st.nextID]) := by
      rw [hsent]
      simpa using enterKprobePart_new_ok env _ hk1
    have hkeep := enterPhase_sinkFail_keep env st _ _ _ hkp hs hm
      (by simp; omega)
    rw [hkeep, hsent]
    simp
  · intro hk1 hc0 live hl
    rw [hfresh hk1 hc0]
    have h1 : List.filter (fun p => decide (p.1 ≠ st.nextID + 1))
        ((live ++ [(st.nextID, "raw_syscalls/sys_enter")]) ++
          [(st.nextID + 1, syscallNewEnterKprobeAddress)]) =
        live ++ [(st.nextID, "raw_syscalls/sys_enter")] := by
      rw [List.filter_append, List.filter_append]
      rw [List.filter_eq_self.mpr (fun p hp => by
        have := hl p hp
        simp
        omega)]
      simp
    have h2 : List.filter (fun p => decide (p.1 ≠ st.nextID))
        (live ++ [(st.nextID, "raw_syscalls/sys_enter")]) = live := by
      rw [List.filter_append]
      rw [List.filter_eq_self.mpr (fun p hp => by
        have := hl p hp
        simp
        omega)]
      simp
    simp only [liveFrom, List.foldl_cons, List.foldl_nil, applyAction, h1, h2]

/-- Witness for C3: a concrete fresh-sentinel run whose sink creation
fails ends with count 0, no sinks, and the kernel event set empty. -/
theorem enterSinkRollback_spec_witness :
    enterPhase envEnterSinkFails ⟨0, 0, 0⟩ =
      ({ dummySyscallEventCount := 0, dummySyscallEventID := 0, nextID := 2 },
       [Action.regTracepoint "raw_syscalls/sys_enter" true 0,
        Action.regKprobe syscallNewEnterKprobeAddress syscallEnterKprobeFetchargs
          true 1,
        Action.addEventSink true false,
        Action.logStatus Code.UNKNOWN
          "Invalid filter expression for syscall enter filter",
        Action.unregisterEvent 1,
        Action.unregisterEvent 0], [])
    ∧ liveFrom [] (enterPhase envEnterSinkFails ⟨0, 0, 0⟩).2.1 = [] := by
  have h := enterSinkRollback_spec envEnterSinkFails ⟨0, 0, 0⟩ (by decide) rfl rfl
  exact ⟨h.1 rfl rfl, h.2.2.2 rfl rfl [] (by simp)⟩

/-- Replay distributes over trace concatenation. -/
theorem liveFrom_append (live : List (Nat × String)) (a b : List Action) :
    liveFrom live (a ++ b) = liveFrom (liveFrom live a) b :=
  List.foldl_append _ _ _ _

/-- Validity distributes over trace concatenation. -/
theorem validFrom_append (live : List (Nat × String)) (a b : List Action) :
    validFrom live (a ++ b) =
      (validFrom live a && validFrom (liveFrom live a) b) := by
  induction a generalizing live with
  | nil => simp [validFrom, liveFrom]
  | cons x a ih =>
      simp only [List.cons_append, validFrom]
      rw [show a.append b = a ++ b from rfl, ih]
      simp [liveFrom, Bool.and_assoc]

/-- Sentinel part in the shared regime with the sentinel registration
succeeding: the state transition and the replay effect, by whether the
reference count was previously zero. -/
theorem sentinelPart_live (env : RegEnv) (st : SensorState)
    (hm : ¬ env.major < 3)
    (hraw : env.tracepointOk "raw_syscalls/sys_enter" = true) :
    (st.dummySyscallEventCount = 0 →
      (sentinelPart env st).1 =
        { st with
            dummySyscallEventCount := st.dummySyscallEventCount + 1,
            dummySyscallEventID := st.nextID,
            nextID := st.nextID + 1 }
      ∧ (∀ live, liveFrom live (sentinelPart env st).2 =
          live ++ [(st.nextID, "raw_syscalls/sys_enter")])
      ∧ (∀ live, validFrom live (sentinelPart env st).2 = true))
    ∧ (¬ st.dummySyscallEventCount = 0 →
        (sentinelPart env st).1 =
          { st with dummySyscallEventCount := st.dummySyscallEventCount + 1 }
        ∧ (∀ live, liveFrom live (sentinelPart env st).2 = live)
        ∧ (∀ live, validFrom live (sentinelPart env st).2 = true)) := by
  constructor
  · intro hc0
    have hc1 : st.dummySyscallEventCount + 1 = 1 := by omega
    have hsent := sentinelPart_new_fresh_ok env st hm hc1 hraw
    rw [hsent]
    refine ⟨rfl, ?_, ?_⟩ <;> intro live <;>
      simp [liveFrom, validFrom, applyAction]
  · intro hc0
    have hc1 : ¬ st.dummySyscallEventCount + 1 = 1 := by omega
    have hsent := sentinelPart_new_subsequent env st hm hc1
    rw [hsent]
    exact ⟨rfl, fun live => rfl, fun live => rfl⟩

/-- Enter kprobe part: either some symbol other than the sentinel name
registered with a fresh id, or both failed; in both cases the trace has
no unregistrations and replays validly. -/
theorem enterKprobePart_live (env : RegEnv) (st : SensorState) :
    ((∃ sym, (sym == "raw_syscalls/sys_enter") = false
      ∧ (enterKprobePart env st).1 = { st with nextID := st.nextID + 1 }
      ∧ (enterKprobePart env st).2.1 = some st.nextID
      ∧ (∀ live, liveFrom live (enterKprobePart env st).2.2 =
          live ++ [(st.nextID, sym)])
      ∧ (∀ live, validFrom live (enterKprobePart env st).2.2 = true))
     ∨ ((enterKprobePart env st).1 = st
      ∧ (enterKprobePart env st).2.1 = none
      ∧ (∀ live, liveFrom live (enterKprobePart env st).2.2 = live)
      ∧ (∀ live, validFrom live (enterKprobePart env st).2.2 = true))) := by
  cases hk1 : env.kprobeOk syscallNewEnterKprobeAddress
  · cases hk2 : env.kprobeOk syscallOldEnterKprobeAddress
    · right
      rw [enterKprobePart_bothFail env st hk1 hk2]
      exact ⟨rfl, rfl, fun live => rfl, fun live => rfl⟩
    · left
      refine ⟨syscallOldEnterKprobeAddress, by decide, ?_⟩
      rw [enterKprobePart_fallback_ok env st hk1 hk2]
      refine ⟨rfl, rfl, ?_, ?_⟩ <;> intro live <;>
        simp [liveFrom, validFrom, applyAction]
  · left
    refine ⟨syscallNewEnterKprobeAddress, by decide, ?_⟩
    rw [enterKprobePart_new_ok env st hk1]
    refine ⟨rfl, rfl, ?_, ?_⟩ <;> intro live <;>
      simp [liveFrom, validFrom, applyAction]

/-- Sentinel entries distribute over appended live lists. -/
theorem sentinelEntries_append (a b : List (Nat × String)) :
    sentinelEntries (a ++ b) = sentinelEntries a ++ sentinelEntries b := by
  simp [sentinelEntries]

/-- Effect of the enter phase on the lifecycle invariant, shared regime
with working sentinel registration: the count dominates the previous
count plus the hooks handed out, ids stay fresh and distinct, the trace
replays validly, and the sentinel entry tracks the sign of the count. -/
theorem enterPhase_inv (env : RegEnv) (st : SensorState)
    (hm : 3 ≤ env.major)
    (hraw : env.tracepointOk "raw_syscalls/sys_enter" = true)
    (h0 : 0 ≤ st.dummySyscallEventCount) :
    (hookedCount (enterPhase env st).2.2 : Int) + st.dummySyscallEventCount ≤
        (enterPhase env st).1.dummySyscallEventCount
    ∧ 0 ≤ (enterPhase env st).1.dummySyscallEventCount
    ∧ st.nextID ≤ (enterPhase env st).1.nextID
    ∧ ∀ live : List (Nat × String),
        (∀ p ∈ live, p.1 < st.nextID) →
        live.Pairwise (fun p q => p.1 ≠ q.1) →
        sentinelEntries live =
          (if 0 < st.dummySyscallEventCount
           then [(st.dummySyscallEventID, "raw_syscalls/sys_enter")] else []) →
        validFrom live (enterPhase env st).2.1 = true
        ∧ (∀ p ∈ liveFrom live (enterPhase env st).2.1,
            p.1 < (enterPhase env st).1.nextID)
        ∧ (liveFrom live (enterPhase env st).2.1).Pairwise
            (fun p q => p.1 ≠ q.1)
        ∧ sentinelEntries (liveFrom live (enterPhase env st).2.1) =
            (if 0 < (enterPhase env st).1.dummySyscallEventCount
             then [((enterPhase env st).1.dummySyscallEventID,
               "raw_syscalls/sys_enter")] else []) := by
  have hm' : ¬ env.major < 3 := by omega
  have hsl := sentinelPart_live env st hm' hraw
  have hkl := enterKprobePart_live env (sentinelPart env st).1
  have hcomm : ∀ (q : Nat × String → Bool) (l : List (Nat × String)),
      sentinelEntries (l.filter q) = (sentinelEntries l).filter q := by
    intro q l
    simp [sentinelEntries, List.filter_filter, Bool.and_comm]
  rcases hkeq0 : enterKprobePart env (sentinelPart env st).1 with ⟨st2, r2, A2⟩
  rw [hkeq0] at hkl
  dsimp only at hkl
  by_cases hc0 : st.dummySyscallEventCount = 0
  · obtain ⟨hst1, hlv1, hvd1⟩ := hsl.1 hc0
    have hC : (sentinelPart env st).1.dummySyscallEventCount =
        st.dummySyscallEventCount + 1 := by rw [hst1]
    have hD : (sentinelPart env st).1.dummySyscallEventID = st.nextID := by
      rw [hst1]
    have hN : (sentinelPart env st).1.nextID = st.nextID + 1 := by rw [hst1]
    rcases hkl with ⟨sym, hsym, hks, hkid, hklv, hkvd⟩ | ⟨hks, hknone, hklv, hkvd⟩
    · subst hks hkid
      simp only [hN] at hklv
      cases hsk : env.enterSinkOk
      · -- sink fails: fresh sentinel released
        have hrel := enterPhase_sinkFail_release env st _ _ _ hkeq0 hsk hm
          (by dsimp only; omega)
        rw [hrel]
        dsimp only
        rw [hC, hD, hN]
        refine ⟨by simp [hookedCount] <;> omega, by omega, by omega, ?_⟩
        intro live hl hdist hsent
        rw [if_neg (by omega)] at hsent
        have hlv12 : liveFrom live ((sentinelPart env st).2 ++ A2) =
            live ++ [(st.nextID, "raw_syscalls/sys_enter")] ++
              [(st.nextID + 1, sym)] := by
          rw [liveFrom_append, hlv1, hklv]
        have h1 : List.filter (fun p => decide (p.1 ≠ st.nextID + 1))
            ((live ++ [(st.nextID, "raw_syscalls/sys_enter")]) ++
              [(st.nextID + 1, sym)]) =
            live ++ [(st.nextID, "raw_syscalls/sys_enter")] := by
          rw [List.filter_append, List.filter_append]
          rw [List.filter_eq_self.mpr (fun p (hp : p ∈ live) => by
            have := hl p hp
            simp
            omega)]
          simp
        have h2 : List.filter (fun p => decide (p.1 ≠ st.nextID))
            (live ++ [(st.nextID, "raw_syscalls/sys_enter")]) = live := by
          rw [List.filter_append]
          rw [List.filter_eq_self.mpr (fun p (hp : p ∈ live) => by
            have := hl p hp
            simp
            omega)]
          simp
        have hfinal : liveFrom
            (live ++ [(st.nextID, "raw_syscalls/sys_enter")] ++
              [(st.nextID + 1, sym)])
            [Action.addEventSink true false,
             Action.logStatus Code.UNKNOWN
               "Invalid filter expression for syscall enter filter",
             Action.unregisterEvent (st.nextID + 1),
             Action.unregisterEvent st.nextID] = live := by
          simp only [liveFrom, List.foldl_cons, List.foldl_nil, applyAction]
          rw [h1, h2]
        refine ⟨?_, ?_, ?_, ?_⟩
        · rw [validFrom_append, validFrom_append, hvd1, hkvd, hlv12]
          simp only [Bool.true_and]
          simp [validFrom, applyAction, List.any_append, List.filter_append]
        · intro p hp
          rw [liveFrom_append, hlv12, hfinal] at hp
          have := hl p hp
          omega
        · rw [liveFrom_append, hlv12, hfinal]
          exact hdist
        · rw [liveFrom_append, hlv12, hfinal, hsent]
          rw [if_neg (by omega)]
      · -- sink created with the hook
        have hok := enterPhase_sinkOk env st _ _ _ hkeq0 hsk
        rw [hok]
        dsimp only
        rw [hC, hD, hN]
        refine ⟨?_, by omega, by omega, ?_⟩
        · simp [hookedCount, hm] <;> omega
        · intro live hl hdist hsent
          rw [if_neg (by omega)] at hsent
          have hlv12 : liveFrom live ((sentinelPart env st).2 ++ A2) =
              live ++ [(st.nextID, "raw_syscalls/sys_enter")] ++
                [(st.nextID + 1, sym)] := by
            rw [liveFrom_append, hlv1, hklv]
          refine ⟨?_, ?_, ?_, ?_⟩
          · rw [validFrom_append, validFrom_append, hvd1, hkvd]
            simp [validFrom, applyAction]
          · intro p hp
            rw [liveFrom_append, hlv12] at hp
            simp only [liveFrom, List.foldl_cons, List.foldl_nil,
              applyAction, List.mem_append] at hp
            rcases hp with (hp | hp) | hp
            · have := hl p hp
              omega
            · have hp' := List.mem_singleton.mp hp
              subst hp'
              dsimp only
              omega
            · have hp' := List.mem_singleton.mp hp
              subst hp'
              dsimp only
              omega
          · rw [liveFrom_append, hlv12]
            simp only [liveFrom, List.foldl_cons, List.foldl_nil, applyAction]
            refine List.pairwise_append.mpr ⟨?_, by simp, ?_⟩
            · exact List.pairwise_append.mpr ⟨hdist, by simp,
                fun p hp q hq => by
                  have := hl p hp
                  have hq' := List.mem_singleton.mp hq
                  subst hq'
                  dsimp only
                  omega⟩
            · intro p hp q hq
              have hq' := List.mem_singleton.mp hq
              subst hq'
              dsimp only
              rcases List.mem_append.mp hp with hp | hp
              · have := hl p hp
                omega
              · have hp' := List.mem_singleton.mp hp
                subst hp'
                dsimp only
                omega
          · rw [liveFrom_append, hlv12]
            simp only [liveFrom, List.foldl_cons, List.foldl_nil, applyAction]
            rw [sentinelEntries_append, sentinelEntries_append, hsent]
            rw [if_pos (by omega)]
            simp [sentinelEntries, hsym]
    · -- both kprobes failed
      subst hks hknone
      have hnone := enterPhase_kprobeNone env st _ _ hkeq0
      rw [hnone]
      rw [hC, hD, hN]
      refine ⟨by simp [hookedCount] <;> omega, by omega, by omega, ?_⟩
      intro live hl hdist hsent
      rw [if_neg (by omega)] at hsent
      have hlv12 : liveFrom live ((sentinelPart env st).2 ++ A2) =
          live ++ [(st.nextID, "raw_syscalls/sys_enter")] := by
        rw [liveFrom_append, hlv1, hklv]
      refine ⟨?_, ?_, ?_, ?_⟩
      · rw [validFrom_append, validFrom_append, hvd1, hkvd]
        simp [validFrom, applyAction]
      · intro p hp
        rw [liveFrom_append, hlv12] at hp
        simp only [liveFrom, List.foldl_cons, List.foldl_nil, applyAction,
          List.mem_append] at hp
        rcases hp with hp | hp
        · have := hl p hp
          omega
        · have hp' := List.mem_singleton.mp hp
          subst hp'
          dsimp only
          omega
      · rw [liveFrom_append, hlv12]
        simp only [liveFrom, List.foldl_cons, List.foldl_nil, applyAction]
        exact List.pairwise_append.mpr ⟨hdist, by simp,
          fun p hp q hq => by
            have := hl p hp
            have hq' := List.mem_singleton.mp hq
            subst hq'
            dsimp only
            omega⟩
      · rw [liveFrom_append, hlv12]
        simp only [liveFrom, List.foldl_cons, List.foldl_nil, applyAction]
        rw [sentinelEntries_append, hsent]
        rw [if_pos (by omega)]
        simp [sentinelEntries]
  · -- subsequent subscription: count > 0
    obtain ⟨hst1, hlv1, hvd1⟩ := hsl.2 hc0
    have hcpos : 0 < st.dummySyscallEventCount := by omega
    have hC : (sentinelPart env st).1.dummySyscallEventCount =
        st.dummySyscallEventCount + 1 := by rw [hst1]
    have hD : (sentinelPart env st).1.dummySyscallEventID =
        st.dummySyscallEventID := by rw [hst1]
    have hN : (sentinelPart env st).1.nextID = st.nextID := by rw [hst1]
    rcases hkl with ⟨sym, hsym, hks, hkid, hklv, hkvd⟩ | ⟨hks, hknone, hklv, hkvd⟩
    · subst hks hkid
      simp only [hN] at hklv
      cases hsk : env.enterSinkOk
      · -- sink fails: reference kept
        have hkeep := enterPhase_sinkFail_keep env st _ _ _ hkeq0 hsk hm
          (by dsimp only; omega)
        rw [hkeep]
        dsimp only
        rw [hC, hD, hN]
        refine ⟨by simp [hookedCount] <;> omega, by omega, by omega, ?_⟩
        intro live hl hdist hsent
        rw [if_pos hcpos] at hsent
        have hdmem : (st.dummySyscallEventID, "raw_syscalls/sys_enter") ∈ live := by
          have : (st.dummySyscallEventID, "raw_syscalls/sys_enter") ∈
              sentinelEntries live := by
            rw [hsent]
            exact List.mem_singleton.mpr rfl
          exact List.mem_of_mem_filter this
        have hdlt : st.dummySyscallEventID < st.nextID := hl _ hdmem
        have hlv12 : liveFrom live ((sentinelPart env st).2 ++ A2) =
            live ++ [(st.nextID, sym)] := by
          rw [liveFrom_append, hlv1, hklv]
        have h2 : List.filter (fun p => decide (p.1 ≠ st.nextID))
            (live ++ [(st.nextID, sym)]) = live := by
          rw [List.filter_append]
          rw [List.filter_eq_self.mpr (fun p (hp : p ∈ live) => by
            have := hl p hp
            simp
            omega)]
          simp
        have hfinal : liveFrom (live ++ [(st.nextID, sym)])
            [Action.addEventSink true false,
             Action.logStatus Code.UNKNOWN
               "Invalid filter expression for syscall enter filter",
             Action.unregisterEvent st.nextID] = live := by
          simp only [liveFrom, List.foldl_cons, List.foldl_nil, applyAction]
          rw [h2]
        refine ⟨?_, ?_, ?_, ?_⟩
        · rw [validFrom_append, validFrom_append, hvd1, hkvd, hlv12]
          simp [validFrom, applyAction, List.any_append]
        · intro p hp
          rw [liveFrom_append, hlv12, hfinal] at hp
          have := hl p hp
          omega
        · rw [liveFrom_append, hlv12, hfinal]
          exact hdist
        · rw [liveFrom_append, hlv12, hfinal, hsent]
          rw [if_pos (by omega)]
      · -- sink created with the hook
        have hok := enterPhase_sinkOk env st _ _ _ hkeq0 hsk
        rw [hok]
        dsimp only
        rw [hC, hD, hN]
        refine ⟨?_, by omega, by omega, ?_⟩
        · simp [hookedCount, hm] <;> omega
        · intro live hl hdist hsent
          rw [if_pos hcpos] at hsent
          have hdmem : (st.dummySyscallEventID, "raw_syscalls/sys_enter") ∈ live := by
            have : (st.dummySyscallEventID, "raw_syscalls/sys_enter") ∈
                sentinelEntries live := by
              rw [hsent]
              exact List.mem_singleton.mpr rfl
            exact List.mem_of_mem_filter this
          have hlv12 : liveFrom live ((sentinelPart env st).2 ++ A2) =
              live ++ [(st.nextID, sym)] := by
            rw [liveFrom_append, hlv1, hklv]
          refine ⟨?_, ?_, ?_, ?_⟩
          · rw [validFrom_append, validFrom_append, hvd1, hkvd]
            simp [validFrom, applyAction]
          · intro p hp
            rw [liveFrom_append, hlv12] at hp
            simp only [liveFrom, List.foldl_cons, List.foldl_nil, applyAction,
              List.mem_append] at hp
            rcases hp with hp | hp
            · have := hl p hp
              omega
            · have hp' := List.mem_singleton.mp hp
              subst hp'
              dsimp only
              omega
          · rw [liveFrom_append, hlv12]
            simp only [liveFrom, List.foldl_cons, List.foldl_nil, applyAction]
            exact List.pairwise_append.mpr ⟨hdist, by simp,
              fun p hp q hq => by
                have := hl p hp
                have hq' := List.mem_singleton.mp hq
                subst hq'
                dsimp only
                omega⟩
          · rw [liveFrom_append, hlv12]
            simp only [liveFrom, List.foldl_cons, List.foldl_nil, applyAction]
            rw [sentinelEntries_append, hsent]
            rw [if_pos (by omega)]
            simp [sentinelEntries, hsym]
    · -- both kprobes failed
      subst hks hknone
      have hnone := enterPhase_kprobeNone env st _ _ hkeq0
      rw [hnone]
      rw [hC, hD, hN]
      refine ⟨by simp [hookedCount] <;> omega, by omega, by omega, ?_⟩
      intro live hl hdist hsent
      rw [if_pos hcpos] at hsent
      have hlv12 : liveFrom live ((sentinelPart env st).2 ++ A2) = live := by
        rw [liveFrom_append, hlv1, hklv]
      refine ⟨?_, ?_, ?_, ?_⟩
      · rw [validFrom_append, validFrom_append, hvd1, hkvd]
        simp [validFrom, applyAction]
      · intro p hp
        rw [liveFrom_append, hlv12] at hp
        simp only [liveFrom, List.foldl_cons, List.foldl_nil, applyAction] at hp
        have := hl p hp
        omega
      · rw [liveFrom_append, hlv12]
        simp only [liveFrom, List.foldl_cons, List.foldl_nil, applyAction]
        exact hdist
      · rw [liveFrom_append, hlv12]
        simp only [liveFrom, List.foldl_cons, List.foldl_nil, applyAction]
        rw [hsent]
        rw [if_pos (by omega)]

/-- Exit tracepoint part: either one of the two exit names registered
with a fresh id (and neither is the sentinel name), or both failed; no
unregistrations either way. -/
theorem exitTracepointPart_live (env : RegEnv) (st : SensorState) :
    ((∃ nm, (nm == "raw_syscalls/sys_enter") = false
      ∧ (exitTracepointPart env st).1 = { st with nextID := st.nextID + 1 }
      ∧ (exitTracepointPart env st).2.1 = some st.nextID
      ∧ (∀ live, liveFrom live (exitTracepointPart env st).2.2 =
          live ++ [(st.nextID, nm)])
      ∧ (∀ live, validFrom live (exitTracepointPart env st).2.2 = true))
     ∨ ((exitTracepointPart env st).1 = st
      ∧ (exitTracepointPart env st).2.1 = none
      ∧ (∀ live, liveFrom live (exitTracepointPart env st).2.2 = live)
      ∧ (∀ live, validFrom live (exitTracepointPart env st).2.2 = true))) := by
  cases h1 : env.tracepointOk "raw_syscalls/sys_exit"
  · cases h2 : env.tracepointOk "syscalls/sys_exit"
    · right
      rw [exitTracepointPart_bothFail env st h1 h2]
      exact ⟨rfl, rfl, fun live => rfl, fun live => rfl⟩
    · left
      refine ⟨"syscalls/sys_exit", by decide, ?_⟩
      rw [exitTracepointPart_fallback env st h1 h2]
      refine ⟨rfl, rfl, ?_, ?_⟩ <;> intro live <;>
        simp [liveFrom, validFrom, applyAction]
  · left
    refine ⟨"raw_syscalls/sys_exit", by decide, ?_⟩
    rw [exitTracepointPart_ok env st h1]
    refine ⟨rfl, rfl, ?_, ?_⟩ <;> intro live <;>
      simp [liveFrom, validFrom, applyAction]

/-- Effect of the exit phase on the lifecycle invariant: the shared count
and sentinel id are untouched, no sink carries the sentinel hook, the
trace replays validly and leaves the sentinel entries unchanged. -/
theorem exitPhase_inv (env : RegEnv) (st : SensorState) :
    (exitPhase env st).1.dummySyscallEventCount = st.dummySyscallEventCount
    ∧ (exitPhase env st).1.dummySyscallEventID = st.dummySyscallEventID
    ∧ st.nextID ≤ (exitPhase env st).1.nextID
    ∧ (∀ s ∈ (exitPhase env st).2.2, s.hasDummyHook = false)
    ∧ ∀ live : List (Nat × String),
        (∀ p ∈ live, p.1 < st.nextID) →
        live.Pairwise (fun p q => p.1 ≠ q.1) →
        validFrom live (exitPhase env st).2.1 = true
        ∧ (∀ p ∈ liveFrom live (exitPhase env st).2.1,
            p.1 < (exitPhase env st).1.nextID)
        ∧ (liveFrom live (exitPhase env st).2.1).Pairwise
            (fun p q => p.1 ≠ q.1)
        ∧ sentinelEntries (liveFrom live (exitPhase env st).2.1) =
            sentinelEntries live := by
  rcases hteq : exitTracepointPart env st with ⟨st1, r1, A1⟩
  have htl := exitTracepointPart_live env st
  rw [hteq] at htl
  dsimp only at htl
  rcases htl with ⟨nm, hnm, hts, htid, htlv, htvd⟩ | ⟨hts, htnone, htlv, htvd⟩
  · subst hts htid
    cases hsk : env.exitSinkOk
    · have hfail := exitPhase_sinkFail env st _ _ _ hteq hsk
      rw [hfail]
      dsimp only
      refine ⟨rfl, rfl, by omega, by simp, ?_⟩
      intro live hl hdist
      have h2 : List.filter (fun p => decide (p.1 ≠ st.nextID))
          (live ++ [(st.nextID, nm)]) = live := by
        rw [List.filter_append]
        rw [List.filter_eq_self.mpr (fun p (hp : p ∈ live) => by
          have := hl p hp
          simp
          omega)]
        simp
      have hfinal : liveFrom live
          (A1 ++
            [Action.addEventSink false false,
             Action.logStatus Code.UNKNOWN
               "Invalid filter expression for syscall exit filter",
             Action.unregisterEvent st.nextID]) = live := by
        rw [liveFrom_append, htlv]
        simp only [liveFrom, List.foldl_cons, List.foldl_nil, applyAction]
        rw [h2]
      refine ⟨?_, ?_, ?_, ?_⟩
      · rw [validFrom_append, htvd, htlv]
        simp [validFrom, applyAction, List.any_append]
      · intro p hp
        rw [hfinal] at hp
        have := hl p hp
        omega
      · rw [hfinal]
        exact hdist
      · rw [hfinal]
    · have hok := exitPhase_sinkOk env st _ _ _ hteq hsk
      rw [hok]
      dsimp only
      refine ⟨rfl, rfl, by omega, by simp, ?_⟩
      intro live hl hdist
      have hfinal : liveFrom live (A1 ++ [Action.addEventSink false true]) =
          live ++ [(st.nextID, nm)] := by
        rw [liveFrom_append, htlv]
        simp [liveFrom, applyAction]
      refine ⟨?_, ?_, ?_, ?_⟩
      · rw [validFrom_append, htvd]
        simp [validFrom, applyAction]
      · intro p hp
        rw [hfinal] at hp
        rcases List.mem_append.mp hp with hp | hp
        · have := hl p hp
          omega
        · have hp' := List.mem_singleton.mp hp
          subst hp'
          dsimp only
          omega
      · rw [hfinal]
        exact List.pairwise_append.mpr ⟨hdist, by simp,
          fun p hp q hq => by
            have := hl p hp
            have hq' := List.mem_singleton.mp hq
            subst hq'
            dsimp only
            omega⟩
      · rw [hfinal, sentinelEntries_append]
        simp [sentinelEntries, hnm]
  · have hteq2 : exitTracepointPart env st = (st, none, A1) := by
      rw [hteq, hts, htnone]
    have hnone := exitPhase_none env st _ _ hteq2
    rw [hnone]
    dsimp only
    refine ⟨rfl, rfl, by omega, by simp, ?_⟩
    intro live hl hdist
    have hfinal : liveFrom live
        (A1 ++ [Action.logStatus Code.UNKNOWN
          "Could not register tracepoint syscalls/sys_exit"]) = live := by
      rw [liveFrom_append, htlv]
      simp [liveFrom, applyAction]
    refine ⟨?_, ?_, ?_, ?_⟩
    · rw [validFrom_append, htvd]
      simp [validFrom, applyAction]
    · intro p hp
      rw [hfinal] at hp
      have := hl p hp
      omega
    · rw [hfinal]
      exact hdist
    · rw [hfinal]

/-- Hook counting distributes over append. -/
theorem hookedCount_append (a b : List EventSink) :
    hookedCount (a ++ b) = hookedCount a + hookedCount b := by
  simp [hookedCount, List.filter_append]

/-- A sink list with no hooks counts zero. -/
theorem hookedCount_eq_zero (l : List EventSink)
    (h : ∀ s ∈ l, s.hasDummyHook = false) : hookedCount l = 0 := by
  unfold hookedCount
  rw [List.filter_eq_nil.mpr]
  · rfl
  · intro s hs
    simp [h s hs]

/-- Effect of one whole `registerSyscallEvents` call on the lifecycle
invariant, shared regime with working sentinel registration. -/
theorem registerSyscallEvents_inv (env : RegEnv) (st : SensorState)
    (events : List SyscallEventFilter) (hm : 3 ≤ env.major)
    (hraw : env.tracepointOk "raw_syscalls/sys_enter" = true)
    (h0 : 0 ≤ st.dummySyscallEventCount) :
    (hookedCount (registerSyscallEvents env st events).2.2 : Int) +
        st.dummySyscallEventCount ≤
      (registerSyscallEvents env st events).1.dummySyscallEventCount
    ∧ 0 ≤ (registerSyscallEvents env st events).1.dummySyscallEventCount
    ∧ st.nextID ≤ (registerSyscallEvents env st events).1.nextID
    ∧ ∀ live : List (Nat × String),
        (∀ p ∈ live, p.1 < st.nextID) →
        live.Pairwise (fun p q => p.1 ≠ q.1) →
        sentinelEntries live =
          (if 0 < st.dummySyscallEventCount
           then [(st.dummySyscallEventID, "raw_syscalls/sys_enter")] else []) →
        validFrom live (registerSyscallEvents env st events).2.1 = true
        ∧ (∀ p ∈ liveFrom live (registerSyscallEvents env st events).2.1,
            p.1 < (registerSyscallEvents env st events).1.nextID)
        ∧ (liveFrom live (registerSyscallEvents env st events).2.1).Pairwise
            (fun p q => p.1 ≠ q.1)
        ∧ sentinelEntries (liveFrom live
            (registerSyscallEvents env st events).2.1) =
            (if 0 < (registerSyscallEvents env st events).1.dummySyscallEventCount
             then [((registerSyscallEvents env st events).1.dummySyscallEventID,
               "raw_syscalls/sys_enter")] else []) := by
  have hloopinv : ∀ a ∈ (processFilters events).actions,
      ∃ c m, a = Action.logStatus c m := fun a ha =>
    ((processFilters_actions_invalid events ⟨Expr.nullExpr, Expr.nullExpr, []⟩
      (by simp)) a ha).elim (fun m hm' => ⟨Code.INVALID_ARGUMENT, m, hm'⟩)
  have hln := logs_neutral _ hloopinv
  by_cases hE : (processFilters events).enterFilter ≠ Expr.nullExpr
  · by_cases hX : (processFilters events).exitFilter ≠ Expr.nullExpr
    · -- both directions
      have hreg : registerSyscallEvents env st events =
          ((exitPhase env (enterPhase env st).1).1,
           (processFilters events).actions ++ (enterPhase env st).2.1 ++
             (exitPhase env (enterPhase env st).1).2.1,
           (enterPhase env st).2.2 ++ (exitPhase env (enterPhase env st).1).2.2) := by
        simp only [registerSyscallEvents]
        rw [if_pos hE, if_pos hX]
      obtain ⟨eh1, eh2, eh3, eh4⟩ := enterPhase_inv env st hm hraw h0
      obtain ⟨xh1, xh2, xh3, xh4, xh5⟩ := exitPhase_inv env (enterPhase env st).1
      rw [hreg]
      dsimp only
      refine ⟨?_, ?_, ?_, ?_⟩
      · rw [hookedCount_append, hookedCount_eq_zero _ xh4, xh1]
        push_cast
        omega
      · rw [xh1]
        omega
      · omega
      · intro live hl hdist hsent
        obtain ⟨ev, eids, epw, esent⟩ := eh4 live hl hdist hsent
        obtain ⟨xv, xids, xpw, xsent⟩ := xh5 (liveFrom live (enterPhase env st).2.1)
          eids epw
        refine ⟨?_, ?_, ?_, ?_⟩
        · rw [validFrom_append, validFrom_append, liveFrom_append,
            hln.2.2.2.2, hln.2.2.2.1, ev, xv]
          rfl
        · intro p hp
          rw [liveFrom_append, liveFrom_append, hln.2.2.2.1] at hp
          exact xids p hp
        · rw [liveFrom_append, liveFrom_append, hln.2.2.2.1]
          exact xpw
        · rw [liveFrom_append, liveFrom_append, hln.2.2.2.1, xsent, esent,
            xh1, xh2]
    · -- enter only
      have hreg : registerSyscallEvents env st events =
          ((enterPhase env st).1,
           (processFilters events).actions ++ (enterPhase env st).2.1 ++ [],
           (enterPhase env st).2.2 ++ []) := by
        simp only [registerSyscallEvents]
        rw [if_pos hE, if_neg hX]
      obtain ⟨eh1, eh2, eh3, eh4⟩ := enterPhase_inv env st hm hraw h0
      rw [hreg]
      dsimp only
      refine ⟨?_, ?_, ?_, ?_⟩
      · rw [List.append_nil]
        exact eh1
      · omega
      · omega
      · intro live hl hdist hsent
        obtain ⟨ev, eids, epw, esent⟩ := eh4 live hl hdist hsent
        refine ⟨?_, ?_, ?_, ?_⟩
        · rw [List.append_nil, validFrom_append, hln.2.2.2.2, hln.2.2.2.1, ev]
          rfl
        · intro p hp
          rw [List.append_nil, liveFrom_append, hln.2.2.2.1] at hp
          exact eids p hp
        · rw [List.append_nil, liveFrom_append, hln.2.2.2.1]
          exact epw
        · rw [List.append_nil, liveFrom_append, hln.2.2.2.1, esent]
  · by_cases hX : (processFilters events).exitFilter ≠ Expr.nullExpr
    · -- exit only
      have hreg : registerSyscallEvents env st events =
          ((exitPhase env st).1,
           (processFilters events).actions ++ [] ++ (exitPhase env st).2.1,
           [] ++ (exitPhase env st).2.2) := by
        simp only [registerSyscallEvents]
        rw [if_neg hE, if_pos hX]
      obtain ⟨xh1, xh2, xh3, xh4, xh5⟩ := exitPhase_inv env st
      rw [hreg]
      dsimp only
      refine ⟨?_, ?_, ?_, ?_⟩
      · rw [List.nil_append, hookedCount_eq_zero _ xh4, xh1]
        omega
      · rw [xh1]
        omega
      · omega
      · intro live hl hdist hsent
        obtain ⟨xv, xids, xpw, xsent⟩ := xh5 live hl hdist
        refine ⟨?_, ?_, ?_, ?_⟩
        · rw [List.append_nil, validFrom_append, hln.2.2.2.2, hln.2.2.2.1, xv]
          rfl
        · intro p hp
          rw [List.append_nil, liveFrom_append, hln.2.2.2.1] at hp
          exact xids p hp
        · rw [List.append_nil, liveFrom_append, hln.2.2.2.1]
          exact xpw
        · rw [List.append_nil, liveFrom_append, hln.2.2.2.1, xsent, hsent,
            xh1, xh2]
    · -- neither direction
      have hreg : registerSyscallEvents env st events =
          (st, (processFilters events).actions ++ [] ++ [], []) := by
        simp only [registerSyscallEvents]
        rw [if_neg hE, if_neg hX]
        rfl
      rw [hreg]
      dsimp only
      refine ⟨by simp [hookedCount] <;> omega, by omega, by omega, ?_⟩
      intro live hl hdist hsent
      rw [List.append_nil, List.append_nil]
      exact ⟨hln.2.2.2.2 live, fun p hp => by
          rw [hln.2.2.2.1] at hp
          exact hl p hp,
        by rw [hln.2.2.2.1]; exact hdist,
        by rw [hln.2.2.2.1]; exact hsent⟩

/-- Sentinel entries commute with filtering. -/
theorem sentinelEntries_filter (q : Nat × String → Bool)
    (l : List (Nat × String)) :
    sentinelEntries (l.filter q) = (sentinelEntries l).filter q := by
  simp [sentinelEntries, List.filter_filter, Bool.and_comm]

/-- Hook count of a cons. -/
theorem hookedCount_cons (a : EventSink) (l : List EventSink) :
    hookedCount (a :: l) = (if a.hasDummyHook then 1 else 0) + hookedCount l := by
  simp only [hookedCount, List.filter_cons]
  cases hh : a.hasDummyHook <;> simp [hh] <;> omega

/-- Removing the sink at index `i` removes exactly its hook contribution. -/
theorem hookedCount_eraseIdx (l : List EventSink) (i : Nat) (s : EventSink)
    (h : l.get? i = some s) :
    hookedCount l = hookedCount (l.eraseIdx i) +
      (if s.hasDummyHook then 1 else 0) := by
  induction l generalizing i with
  | nil => simp at h
  | cons a l ih =>
      cases i with
      | zero =>
          simp only [List.get?] at h
          injection h with h
          subst h
          simp only [List.eraseIdx]
          rw [hookedCount_cons]
          omega
      | succ i =>
          simp only [List.get?] at h
          simp only [List.eraseIdx]
          rw [hookedCount_cons, hookedCount_cons, ih i h]
          omega

/-- Replay from the empty kernel distributes over append. -/
theorem liveEvents_append (a b : List Action) :
    liveEvents (a ++ b) = liveFrom (liveEvents a) b := by
  unfold liveEvents liveFrom
  exact List.foldl_append _ _ _ _

/-- Validity from the empty kernel distributes over append. -/
theorem validFrom_nil_append (a b : List Action) :
    validFrom [] (a ++ b) = (validFrom [] a && validFrom (liveEvents a) b) :=
  validFrom_append [] a b

/-- The initial world satisfies the lifecycle invariant. -/
theorem WorldInv_initial : WorldInv initialWorld := by
  unfold WorldInv initialWorld
  refine ⟨?_, rfl, ?_, ?_, ?_⟩ <;>
    simp [hookedCount, liveEvents, liveFrom, sentinelEntries]

/-- A registration step preserves the lifecycle invariant. -/
theorem runStep_register_inv (w : World) (env : RegEnv)
    (events : List SyscallEventFilter) (hm : 3 ≤ env.major)
    (hraw : env.tracepointOk "raw_syscalls/sys_enter" = true)
    (hw : WorldInv w) : WorldInv (runStep w (Step.register env events)) := by
  obtain ⟨hw1, hw2, hw3, hw4, hw5⟩ := hw
  have h0 : 0 ≤ w.st.dummySyscallEventCount :=
    le_trans (Int.natCast_nonneg _) hw1
  obtain ⟨r1, r2, r3, r4⟩ := registerSyscallEvents_inv env w.st events hm hraw h0
  obtain ⟨rv, rids, rpw, rsent⟩ := r4 (liveEvents w.trace) hw3 hw4 hw5
  have hrun : runStep w (Step.register env events) =
      { st := (registerSyscallEvents env w.st events).1,
        sinks := w.sinks ++ (registerSyscallEvents env w.st events).2.2,
        trace := w.trace ++ (registerSyscallEvents env w.st events).2.1 } := rfl
  rw [hrun]
  unfold WorldInv
  dsimp only
  refine ⟨?_, ?_, ?_, ?_, ?_⟩
  · rw [hookedCount_append]
    push_cast
    omega
  · rw [validFrom_nil_append, hw2, rv]
    rfl
  · intro p hp
    rw [liveEvents_append] at hp
    exact rids p hp
  · rw [liveEvents_append]
    exact rpw
  · rw [liveEvents_append]
    exact rsent

/-- An unsubscribe step preserves the lifecycle invariant. -/
theorem runStep_unsubscribe_inv (w : World) (i : Nat) (hw : WorldInv w) :
    WorldInv (runStep w (Step.unsubscribe i)) := by
  obtain ⟨hw1, hw2, hw3, hw4, hw5⟩ := hw
  cases hget : w.sinks.get? i with
  | none =>
      have hget2 : w.sinks[i]? = none := by
        rw [← List.get?_eq_getElem?]
        exact hget
      have hrun : runStep w (Step.unsubscribe i) = w := by
        simp [runStep, hget2]
      rw [hrun]
      exact ⟨hw1, hw2, hw3, hw4, hw5⟩
  | some sink =>
      have hget2 : w.sinks[i]? = some sink := by
        rw [← List.get?_eq_getElem?]
        exact hget
      have hcnt := hookedCount_eraseIdx w.sinks i sink hget
      cases hhook : sink.hasDummyHook
      · have hrun : runStep w (Step.unsubscribe i) =
            { w with sinks := w.sinks.eraseIdx i } := by
          simp [runStep, hget2, hhook]
        rw [hrun]
        unfold WorldInv
        dsimp only
        refine ⟨?_, hw2, hw3, hw4, hw5⟩
        rw [hhook] at hcnt
        simp only [if_neg Bool.false_ne_true] at hcnt
        omega
      · have hmem : sink ∈ w.sinks := List.get?_mem hget
        have hhooked1 : 0 < hookedCount w.sinks := by
          have hmf : sink ∈ w.sinks.filter (fun s => s.hasDummyHook) :=
            List.mem_filter.mpr ⟨hmem, by simp [hhook]⟩
          exact List.length_pos_of_mem hmf
        have hcpos : 0 < w.st.dummySyscallEventCount := by omega
        rw [if_pos hcpos] at hw5
        have hdmem : (w.st.dummySyscallEventID, "raw_syscalls/sys_enter") ∈
            liveEvents w.trace := by
          have : (w.st.dummySyscallEventID, "raw_syscalls/sys_enter") ∈
              sentinelEntries (liveEvents w.trace) := by
            rw [hw5]
            exact List.mem_singleton.mpr rfl
          exact List.mem_of_mem_filter this
        rw [hhook] at hcnt
        simp only [if_pos] at hcnt
        by_cases hcz : w.st.dummySyscallEventCount - 1 = 0
        · have hrun : runStep w (Step.unsubscribe i) =
              { st := { w.st with
                  dummySyscallEventCount := w.st.dummySyscallEventCount - 1 },
                sinks := w.sinks.eraseIdx i,
                trace := w.trace ++
                  [Action.unregisterEvent w.st.dummySyscallEventID] } := by
            simp [runStep, hget2, hhook, hcz]
          rw [hrun]
          unfold WorldInv
          dsimp only
          refine ⟨?_, ?_, ?_, ?_, ?_⟩
          · omega
          · rw [validFrom_nil_append, hw2]
            simp only [validFrom, applyAction, Bool.true_and, Bool.and_true]
            exact List.any_eq_true.mpr ⟨_, hdmem, by simp⟩
          · intro p hp
            rw [liveEvents_append] at hp
            simp only [liveFrom, List.foldl_cons, List.foldl_nil,
              applyAction] at hp
            exact hw3 p (List.mem_of_mem_filter hp)
          · rw [liveEvents_append]
            simp only [liveFrom, List.foldl_cons, List.foldl_nil, applyAction]
            exact List.Pairwise.filter _ hw4
          · rw [liveEvents_append]
            simp only [liveFrom, List.foldl_cons, List.foldl_nil, applyAction]
            rw [sentinelEntries_filter, hw5]
            rw [if_neg (by omega)]
            simp
        · have hrun : runStep w (Step.unsubscribe i) =
              { st := { w.st with
                  dummySyscallEventCount := w.st.dummySyscallEventCount - 1 },
                sinks := w.sinks.eraseIdx i,
                trace := w.trace } := by
            simp [runStep, hget2, hhook, hcz]
          rw [hrun]
          unfold WorldInv
          dsimp only
          refine ⟨by omega, hw2, hw3, hw4, ?_⟩
          rw [hw5]
          rw [if_pos (by omega)]

/-- Every `StepOK` sequence preserves the lifecycle invariant. -/
theorem runSteps_inv (steps : List Step) (h : ∀ s ∈ steps, StepOK s) :
    WorldInv (runSteps steps) := by
  suffices H : ∀ (steps : List Step) (w : World), WorldInv w →
      (∀ s ∈ steps, StepOK s) → WorldInv (steps.foldl runStep w) from
    H steps initialWorld WorldInv_initial h
  intro steps
  induction steps with
  | nil => exact fun w hw _ => hw
  | cons s steps ih =>
      intro w hw hok
      refine ih _ ?_ (fun s' hs' => hok s' (List.mem_cons_of_mem _ hs'))
      cases s with
      | register env events =>
          obtain ⟨hm, hraw⟩ := hok _ (List.mem_cons_self _ _)
          exact runStep_register_inv w env events hm hraw hw
      | unsubscribe i => exact runStep_unsubscribe_inv w i hw

/-- Counterexample to C1 as stated: on a major-version-3 kernel, when
sentinel registration fails but the kprobe and sink succeed, the
installed teardown hook decrements an already-restored count, driving the
shared reference count to -1 after one subscribe/unsubscribe pair. -/
theorem sharedSentinel_lifecycle_cex :
    (runSteps [Step.register envSentinelFails [enterIdSef 2],
      Step.unsubscribe 0]).st.dummySyscallEventCount = -1 := by
  decide

/-- C1 (amended): on kernels of major version >= 3, provided the sentinel
tracepoint registration itself succeeds whenever attempted, every
sequence of `registerSyscallEvents` calls and unsubscribe (teardown hook)
steps keeps the shared reference count non-negative, keeps the sentinel
kernel resource live exactly when the count is positive, and never
unregisters an event that is not live (so the sentinel is never
unregistered twice); moreover the first subscription needing an enter
probe creates the sentinel setting the count to 1, and each subsequent
one only increments the count, creating nothing. -/
theorem sharedSentinel_lifecycle (steps : List Step)
    (h : ∀ s ∈ steps, StepOK s) :
    0 ≤ (runSteps steps).st.dummySyscallEventCount
    ∧ (sentinelEntries (liveEvents (runSteps steps).trace) ≠ [] ↔
        0 < (runSteps steps).st.dummySyscallEventCount)
    ∧ validFrom [] (runSteps steps).trace = true
    ∧ (∀ (env : RegEnv) (st : SensorState), 3 ≤ env.major →
        env.tracepointOk "raw_syscalls/sys_enter" = true →
        st.dummySyscallEventCount = 0 →
        sentinelPart env st =
          ({ st with
              dummySyscallEventCount := st.dummySyscallEventCount + 1,
              dummySyscallEventID := st.nextID,
              nextID := st.nextID + 1 },
           [Action.regTracepoint "raw_syscalls/sys_enter" true st.nextID]))
    ∧ (∀ (env : RegEnv) (st : SensorState), 3 ≤ env.major →
        0 < st.dummySyscallEventCount →
        sentinelPart env st =
          ({ st with
              dummySyscallEventCount := st.dummySyscallEventCount + 1 },
           [])) := by
  obtain ⟨hw1, hw2, hw3, hw4, hw5⟩ := runSteps_inv steps h
  have h0 : 0 ≤ (runSteps steps).st.dummySyscallEventCount :=
    le_trans (Int.natCast_nonneg _) hw1
  refine ⟨h0, ?_, hw2, ?_, ?_⟩
  · rw [hw5]
    by_cases hc : 0 < (runSteps steps).st.dummySyscallEventCount
    · rw [if_pos hc]
      simp [hc]
    · rw [if_neg hc]
      simp [hc]
  · intro env st hm hraw hc0
    exact sentinelPart_new_fresh_ok env st (by omega) (by omega) hraw
  · intro env st hm hcpos
    exact sentinelPart_new_subsequent env st (by omega) (by omega)

/-- Witness for the amended C1: two subscriptions on an all-succeeding
major-version-4 kernel followed by two unsubscribes satisfy the
invariant, and the final count is back to 0 with the sentinel gone. -/
theorem sharedSentinel_lifecycle_witness :
    (0 ≤ (runSteps [Step.register envAllOk [enterIdSef 2],
        Step.register envAllOk [enterIdSef 3],
        Step.unsubscribe 0, Step.unsubscribe 0]).st.dummySyscallEventCount
    ∧ (sentinelEntries (liveEvents (runSteps [Step.register envAllOk [enterIdSef 2],
        Step.register envAllOk [enterIdSef 3],
        Step.unsubscribe 0, Step.unsubscribe 0]).trace) ≠ [] ↔
        0 < (runSteps [Step.register envAllOk [enterIdSef 2],
        Step.register envAllOk [enterIdSef 3],
        Step.unsubscribe 0, Step.unsubscribe 0]).st.dummySyscallEventCount)
    ∧ validFrom [] (runSteps [Step.register envAllOk [enterIdSef 2],
        Step.register envAllOk [enterIdSef 3],
        Step.unsubscribe 0, Step.unsubscribe 0]).trace = true)
    ∧ (runSteps [Step.register envAllOk [enterIdSef 2],
        Step.register envAllOk [enterIdSef 3],
        Step.unsubscribe 0, Step.unsubscribe 0]).st.dummySyscallEventCount = 0
    ∧ sentinelEntries (liveEvents (runSteps [Step.register envAllOk [enterIdSef 2],
        Step.register envAllOk [enterIdSef 3],
        Step.unsubscribe 0, Step.unsubscribe 0]).trace) = [] := by
  have hok : ∀ s ∈ [Step.register envAllOk [enterIdSef 2],
      Step.register envAllOk [enterIdSef 3],
      Step.unsubscribe 0, Step.unsubscribe 0], StepOK s := by
    intro s hs
    simp only [List.mem_cons, List.not_mem_nil, or_false] at hs
    rcases hs with rfl | rfl | rfl | rfl
    · exact ⟨by decide, rfl⟩
    · exact ⟨by decide, rfl⟩
    · trivial
    · trivial
  have h := sharedSentinel_lifecycle _ hok
  exact ⟨⟨h.1, h.2.1, h.2.2.1⟩, by decide, by decide⟩

end Capsule8
